import Mathlib

/-!
# Todo API: handler layer and Postgres-backed store

A shallow embedding of `api.go` (the HTTP handlers) and `todo.go` (the store
`Db` with its six operations) together with the properties of the handler/store
contract.

Conventions of the embedding

* Go `error` values are the inductive `GoError`; `errors.Is` walks the `%w` chain.
* The table `todo` is a list of rows; every SQL statement of `todo.go` is a
  function on that list.  A database round trip can fail: each one takes a
  `Net` argument (`none`: the server executes the statement, `some msg`: the
  call fails with that message and has no effect) and the `Context` it was
  issued under.
* `time.Now()` is `now + tick`: the wall clock at the call plus the time elapsed
  since; `uuid.New()` takes the sixteen bytes the random source delivers.
* The goroutines of `GetAllTodoDB` are run by an explicit schedule, which also says
  where the cursor fails, if it does.
* A response body is the list of values handed to `Encode` (or bytes handed to
  `Write`); `Written.render` gives the bytes, the encoders of the leaves being
  taken from encoding/json as they are.
* `NewTodoHandler env decode` is the handler over the real store, serving one
  request in the surroundings `env`.
-/

namespace TodoApi

/-! ## Errors -/

/-- Go `error` values occurring in the program. -/
inductive GoError where
  /-- Declaration `var ErrTodoNotFound = errors.New("todo not found")` (api.go:19). -/
  | ErrTodoNotFound : GoError
  /-- Go `pgx.ErrNoRows`. -/
  | ErrNoRows : GoError
  /-- any other error without an `Unwrap` method: `errors.New(s)`, `fmt.Errorf`
  without `%w`, a driver or connectivity error. -/
  | other (msg : String) : GoError
  /-- Go `fmt.Errorf` with one `%w` verb: text `msg`, `Unwrap()` gives `inner`. -/
  | wrap (msg : String) (inner : GoError) : GoError
  deriving DecidableEq, Repr

namespace GoError

/-- The `Error()` method. -/
def Error : GoError → String
  | ErrTodoNotFound => "todo not found"
  | ErrNoRows => "no rows in result set"
  | other msg => msg
  | wrap msg _ => msg

end GoError

/-- Go `errors.Is(err, target)`: compare, then follow `Unwrap()`. -/
def errorsIs : GoError → GoError → Bool
  | .wrap msg inner, target =>
      if GoError.wrap msg inner = target then true else errorsIs inner target
  | err, target => decide (err = target)

/-- Go `fmt.Errorf(prefix + "%v", err)`: the text of `err` is copied, the chain is cut. -/
def errorfV (pre : String) (err : GoError) : GoError :=
  .other (pre ++ err.Error)

/-- Go `fmt.Errorf(prefix + "%w", err)`: same text, and `err` stays reachable. -/
def errorfW (pre : String) (err : GoError) : GoError :=
  .wrap (pre ++ err.Error) err

/-! ## Contexts -/

/-- A `context.Context`, reduced to what `ctx.Err()` answers while the request is served. -/
structure Context where
  Err : Option String
  deriving DecidableEq, Repr

/-- Go `context.Background()`: never cancelled. -/
def Context.Background : Context := ⟨none⟩

/-- Go `context.WithTimeout(parent, d)`; `expired` says whether `d` runs out before the
database call returns. -/
def Context.WithTimeout (parent : Context) (expired : Bool) : Context :=
  match parent.Err with
  | some e => ⟨some e⟩
  | none => if expired then ⟨some "context deadline exceeded"⟩ else ⟨none⟩

/-! ## The entity -/

/-- Instants, in ticks of the database timestamp resolution. -/
abbrev Time := Nat

/-- Declaration `type Todo struct` (todo.go:15). -/
structure Todo where
  ID : String
  Title : String
  Desc : String
  Done : Bool
  CreatedAt : Time
  DoneAt : Option Time
  deriving DecidableEq, Repr

/-- The zero value `Todo{}`; `time.Time{}` is instant `0`. -/
def Todo.zero : Todo := ⟨"", "", "", false, 0, none⟩

/-- A Go slice as far as the program can tell: `nil` or backed by elements. -/
inductive Slice (α : Type) where
  | nil : Slice α
  | data (xs : List α) : Slice α
  deriving DecidableEq, Repr

/-- Go `append(s, x)`. -/
def Slice.append {α : Type} : Slice α → α → Slice α
  | .nil, x => .data [x]
  | .data xs, x => .data (xs ++ [x])

/-- The elements of a slice, in order. -/
def Slice.toList {α : Type} : Slice α → List α
  | .nil => []
  | .data xs => xs

/-! ## The store interface and the handlers (api.go) -/

/-- Declaration `type TodoStore interface` (todo.go:24) over an implementation state `σ`. -/
structure TodoStore (σ : Type) where
  GetAllTodoDB : Context → σ → Except GoError (Slice Todo) × σ
  GetTodoByIdDB : Context → String → σ → Except GoError Todo × σ
  CreateTodoDB : Context → Todo → σ → Except GoError Todo × σ
  UpdateTodoDB : Context → String → Todo → σ → Except GoError Todo × σ
  DeleteTodoByIdDB : Context → String → σ → Option GoError × σ
  ChangeStatusDB : Context → String → σ → Option GoError × σ

/-- What a handler sees of `*http.Request`. -/
structure Request where
  /-- Go `r.Context()`. -/
  ctx : Context
  /-- whether the five-second timer fires while the request is served. -/
  expired : Bool
  /-- Go `mux.Vars(r)["id"]`. -/
  id : String
  /-- the bytes of `r.Body`. -/
  body : String
  deriving DecidableEq, Repr

/-- A value handed to `json.NewEncoder(w).Encode`, or bytes given to `w.Write`. -/
inductive Written where
  /-- Go `map[string]string{"error": msg}`. -/
  | errorMap (msg : String) : Written
  | todo (t : Todo) : Written
  | todos (ts : Slice Todo) : Written
  | raw (bytes : String) : Written
  deriving DecidableEq, Repr

/-- A recording `http.ResponseWriter`. -/
structure ResponseWriter where
  header : List (String × String)
  /-- the status line, once written. -/
  code : Option Nat
  /-- the headers as they stood when the status line went out. -/
  sent : List (String × String)
  body : List Written
  deriving DecidableEq, Repr

namespace ResponseWriter

/-- A fresh writer. -/
def new : ResponseWriter := ⟨[], none, [], []⟩

/-- Go `w.Header().Set(k, v)`. -/
def setHeader (w : ResponseWriter) (k v : String) : ResponseWriter :=
  { w with header := (k, v) :: w.header.filter (fun p => p.1 != k) }

/-- Go `w.WriteHeader(c)`: only the first call counts. -/
def WriteHeader (w : ResponseWriter) (c : Nat) : ResponseWriter :=
  match w.code with
  | some _ => w
  | none => { w with code := some c, sent := w.header }

/-- Writing to the body; an implicit `WriteHeader(200)` if none happened. -/
def write (w : ResponseWriter) (x : Written) : ResponseWriter :=
  let w1 := w.WriteHeader 200
  { w1 with body := w1.body ++ [x] }

/-- Go `json.NewEncoder(w).Encode(map[string]string{"error": msg})`. -/
def encodeError (w : ResponseWriter) (msg : String) : ResponseWriter :=
  w.write (.errorMap msg)

/-- The status the client receives. -/
def status (w : ResponseWriter) : Nat := w.code.getD 200

end ResponseWriter

/-- Go `http.Status*` constants used by the handlers. -/
def StatusOK : Nat := 200
def StatusCreated : Nat := 201
def StatusNoContent : Nat := 204
def StatusBadRequest : Nat := 400
def StatusNotFound : Nat := 404
def StatusInternalServerError : Nat := 500

/-- Declaration `type APIHandler struct` with its store; `decode` stands for
`json.NewDecoder(r.Body).Decode(&todo)` of encoding/json. -/
structure APIHandler (σ : Type) where
  todoStore : TodoStore σ
  decode : String → Except GoError Todo

namespace APIHandler

variable {σ : Type}

/-- Function `GetAllTodos` (api.go:34). -/
def GetAllTodos (h : APIHandler σ) (r : Request) (s : σ) : ResponseWriter × σ :=
  let w := ResponseWriter.new
  let ctx := Context.WithTimeout r.ctx r.expired
  match h.todoStore.GetAllTodoDB ctx s with
  | (.error _, s1) =>
      let w := w.setHeader "Content-Type" "application/json"
      let w := w.WriteHeader StatusInternalServerError
      (w.encodeError "no data found", s1)
  | (.ok todos, s1) =>
      let w := w.setHeader "Content-Type" "application/json"
      let w := w.WriteHeader StatusOK
      (w.write (.todos todos), s1)

/-- Function `GetTodoByID` (api.go:60). -/
def GetTodoByID (h : APIHandler σ) (r : Request) (s : σ) : ResponseWriter × σ :=
  let w := ResponseWriter.new
  let ctx := Context.WithTimeout r.ctx r.expired
  let w := w.setHeader "Content-Type" "application/json"
  let idStr := r.id
  match h.todoStore.GetTodoByIdDB ctx idStr s with
  | (.error err, s1) =>
      if errorsIs err .ErrTodoNotFound then
        let w := w.WriteHeader StatusNotFound
        (w.encodeError "todo not found", s1)
      else
        let w := w.WriteHeader StatusInternalServerError
        (w.encodeError "Internal Server Error", s1)
  | (.ok todo, s1) =>
      let w := w.WriteHeader StatusOK
      (w.write (.todo todo), s1)

/-- Function `CreateTodo` (api.go:94). -/
def CreateTodo (h : APIHandler σ) (r : Request) (s : σ) : ResponseWriter × σ :=
  let w := ResponseWriter.new
  let ctx := Context.WithTimeout r.ctx r.expired
  let w := w.setHeader "Content-Type" "application/json"
  match h.decode r.body with
  | .error _ =>
      let w := w.WriteHeader StatusBadRequest
      (w.encodeError "Request body is empty", s)
  | .ok todo =>
      match h.todoStore.CreateTodoDB ctx todo s with
      | (.error err, s1) =>
          let w := w.WriteHeader StatusInternalServerError
          (w.encodeError ("Failed to create todo: " ++ err.Error), s1)
      | (.ok createdTodo, s1) =>
          let w := w.WriteHeader StatusCreated
          (w.write (.todo createdTodo), s1)

/-- Function `UpdateTodo` (api.go:130). -/
def UpdateTodo (h : APIHandler σ) (r : Request) (s : σ) : ResponseWriter × σ :=
  let w := ResponseWriter.new
  let ctx := Context.WithTimeout r.ctx r.expired
  let w := w.setHeader "Content-Type" "application/json"
  let idStr := r.id
  match h.decode r.body with
  | .error _ =>
      let w := w.WriteHeader StatusBadRequest
      (w.encodeError "Request body is empty", s)
  | .ok todo =>
      match h.todoStore.UpdateTodoDB ctx idStr todo s with
      | (.error err, s1) =>
          if errorsIs err .ErrTodoNotFound then
            let w := w.WriteHeader StatusNotFound
            (w.encodeError "todo not found", s1)
          else
            let w := w.WriteHeader StatusInternalServerError
            (w.encodeError "Internal Server Error", s1)
      | (.ok updatedTodo, s1) =>
          let w := w.WriteHeader StatusOK
          (w.write (.todo updatedTodo), s1)

/-- Function `DeleteTodoByID` (api.go:174). -/
def DeleteTodoByID (h : APIHandler σ) (r : Request) (s : σ) : ResponseWriter × σ :=
  let w := ResponseWriter.new
  let ctx := Context.WithTimeout r.ctx r.expired
  let w := w.setHeader "Content-Type" "application/json"
  let idStr := r.id
  match h.todoStore.DeleteTodoByIdDB ctx idStr s with
  | (some err, s1) =>
      if errorsIs err .ErrTodoNotFound then
        let w := w.WriteHeader StatusNotFound
        (w.encodeError ("Todo not found with ID " ++ idStr), s1)
      else
        let w := w.WriteHeader StatusInternalServerError
        (w.encodeError ("Failed to delete todo: " ++ err.Error), s1)
  | (none, s1) =>
      (w.WriteHeader StatusNoContent, s1)

/-- Function `ChangeStatus` (api.go:206). -/
def ChangeStatus (h : APIHandler σ) (r : Request) (s : σ) : ResponseWriter × σ :=
  let w := ResponseWriter.new
  let ctx := Context.WithTimeout r.ctx r.expired
  let w := w.setHeader "Content-Type" "application/json"
  let idStr := r.id
  match h.todoStore.ChangeStatusDB ctx idStr s with
  | (some err, s1) =>
      if errorsIs err .ErrTodoNotFound then
        let w := w.WriteHeader StatusNotFound
        (w.encodeError "Todo not found", s1)
      else
        let w := w.WriteHeader StatusInternalServerError
        (w.encodeError ("Failed to changeStatus todo: " ++ err.Error), s1)
  | (none, s1) =>
      let w := w.WriteHeader StatusOK
      (w.write (.raw "\x7b\"status\":\"success\"\x7d"), s1)

end APIHandler

/-! ## The database behind `db.Conn` -/

/-- The rows of table `todo`. -/
abbrev Table := List Todo

/-- How one round trip to the server ends: `none` when the statement is executed,
`some msg` when the call fails with that message before having any effect. -/
abbrev Net := Option String

/-- A pool call issued under `ctx`: it fails when the context is already done and
when the connection fails. -/
def roundTrip (ctx : Context) (net : Net) : Option GoError :=
  match ctx.Err with
  | some e => some (.other e)
  | none => net.map GoError.other

/-- Go `QueryRow(ctx, sql, args...).Scan(...)` for a statement whose result on the
table is `result`. -/
def queryRow {α : Type} (ctx : Context) (net : Net) (result : Except GoError α) :
    Except GoError α :=
  match roundTrip ctx net with
  | some e => .error e
  | none => result

/-- Statement `SELECT * FROM todo WHERE id = $1`, first row scanned. -/
def selectById (db : Table) (id : String) : Except GoError Todo :=
  match db.find? (fun r => r.ID == id) with
  | some r => .ok r
  | none => .error .ErrNoRows

/-- Statement `SELECT done FROM todo WHERE id = $1`, first row scanned. -/
def selectDoneById (db : Table) (id : String) : Except GoError Bool :=
  match db.find? (fun r => r.ID == id) with
  | some r => .ok r.Done
  | none => .error .ErrNoRows

/-- The order of `ORDER BY id`: ids compared character by character. -/
def idLE (a b : Todo) : Prop := a.ID.toList ≤ b.ID.toList

instance : DecidableRel idLE := fun a b => by unfold idLE; infer_instance

/-- Statement `SELECT * FROM todo ORDER BY id`. -/
def selectAllOrderById (db : Table) : List Todo :=
  db.insertionSort idLE

/-- Modelled from the spec: the schema of table `todo` (its migration is not part of
the sources) declares `id` as primary key, so
`INSERT INTO todo (...) VALUES (...) RETURNING ...` is refused when a row with
that id exists and otherwise adds the row and returns it. -/
def insertReturning (db : Table) (row : Todo) : Except GoError Todo × Table :=
  if db.any (fun r => r.ID == row.ID) then
    (.error (.other "ERROR: duplicate key value violates unique constraint (SQLSTATE 23505)"), db)
  else
    (.ok row, db ++ [row])

/-- The rows after `UPDATE todo SET title=$1, description=$2, done=$3, done_at=$4 WHERE id=$5`. -/
def updateRows (db : Table) (title desc : String) (done : Bool) (doneAt : Option Time)
    (id : String) : Table :=
  db.map (fun r =>
    if r.ID == id then { r with Title := title, Desc := desc, Done := done, DoneAt := doneAt }
    else r)

/-- Statement `UPDATE ... WHERE id=$5 RETURNING id, title, description, done, created_at, done_at`,
first returned row scanned. -/
def updateReturning (db : Table) (title desc : String) (done : Bool) (doneAt : Option Time)
    (id : String) : Except GoError Todo × Table :=
  let db1 := updateRows db title desc done doneAt id
  match db1.find? (fun r => r.ID == id) with
  | some r => (.ok r, db1)
  | none => (.error .ErrNoRows, db1)

/-- Statement `DELETE FROM todo WHERE id=$1`. -/
def deleteRows (db : Table) (id : String) : Table :=
  db.filter (fun r => r.ID != id)

/-- Statement `UPDATE todo SET done = $1, done_at = $2 WHERE id = $3`. -/
def updateStatusRows (db : Table) (done : Bool) (doneAt : Option Time) (id : String) : Table :=
  db.map (fun r => if r.ID == id then { r with Done := done, DoneAt := doneAt } else r)

/-! ## `github.com/google/uuid` -/

/-- Go `uuid.New()`: sixteen bytes from the random source, then the version 4 and
variant bits: `u[6] = (u[6] & 0x0f) | 0x40`, `u[8] = (u[8] & 0x3f) | 0x80`. The real
function panics when the source delivers fewer than sixteen bytes; here a missing byte
reads as zero, so `rnd` is meant to hold sixteen. -/
def uuidNew (rnd : List Nat) : List Nat :=
  (List.range 16).map (fun i =>
    let b := rnd.getD i 0 % 256
    if i = 6 then b % 16 + 64
    else if i = 8 then b % 64 + 128
    else b)

/-- Two lower-case hexadecimal digits of a byte. -/
def hexByte (b : Nat) : List Char :=
  [Nat.digitChar (b / 16 % 16), Nat.digitChar (b % 16)]

/-- Go `UUID.String()`: the form xxxxxxxx-xxxx-xxxx-xxxx-xxxxxxxxxxxx. -/
def uuidString (u : List Nat) : String :=
  let h := fun i => hexByte (u.getD i 0)
  String.mk (h 0 ++ h 1 ++ h 2 ++ h 3 ++ ['-'] ++ h 4 ++ h 5 ++ ['-'] ++ h 6 ++ h 7 ++ ['-']
    ++ h 8 ++ h 9 ++ ['-'] ++ h 10 ++ h 11 ++ h 12 ++ h 13 ++ h 14 ++ h 15)

/-! ## The store (todo.go) -/

/-- An event while `GetAllTodoDB` runs: a step of the scheduler, or the failure of the
cursor. -/
inductive Step where
  /-- the main goroutine takes the next row off the cursor and starts its goroutine. -/
  | scan : Step
  /-- the `i`-th goroutine still waiting takes the mutex and appends its row. -/
  | run (i : Nat) : Step
  /-- the statement fails while it executes or the connection breaks while rows are read:
  `rows.Next()` answers false from here on; the cause sits in `rows.Err()`, which
  todo.go never reads. -/
  | abort : Step
  deriving DecidableEq, Repr

/-- The state of the loop of `GetAllTodoDB`. -/
structure Loop where
  /-- rows the cursor has not delivered yet. -/
  rest : List Todo
  /-- rows whose goroutine has been started and has not appended yet. -/
  pending : List Todo
  /-- the variable `todos`. -/
  todos : Slice Todo
  deriving DecidableEq, Repr

/-- One event; a scheduler step that is not enabled changes nothing. -/
def Loop.step (l : Loop) : Step → Loop
  | .scan =>
      match l.rest with
      | [] => l
      | row :: rest => { l with rest := rest, pending := l.pending ++ [row] }
  | .run i =>
      match l.pending.get? i with
      | none => l
      | some row => { l with pending := l.pending.eraseIdx i, todos := l.todos.append row }
  | .abort => { l with rest := [] }

/-- After the events given, everything left runs in program order; `wg.Wait()` returns
when no goroutine is waiting any more, and `todos` is returned with a nil error without
a look at `rows.Err()`. -/
def Loop.finish (l : Loop) : Slice Todo :=
  (l.pending ++ l.rest).foldl Slice.append l.todos

/-- Function `GetAllTodoDB` (todo.go:38); the query runs under `context.Background()`.
`net` is the outcome of `Query` itself (todo.go:43-46), the only failure the function
reports; a failure after that is the event `Step.abort` and ends the loop with the rows
appended so far. A row is a value of `Todo`, which `rows.Scan` always decodes, so the
`log.Fatal` of todo.go:53 is not reached. -/
def GetAllTodoDB (db : Table) (_ctx : Context) (net : Net) (sched : List Step) :
    Except GoError (Slice Todo) :=
  match roundTrip Context.Background net with
  | some err => .error err
  | none => .ok (sched.foldl Loop.step ⟨selectAllOrderById db, [], .nil⟩).finish

/-- Function `GetTodoByIdDB` (todo.go:69); the query runs under `context.Background()`. -/
def GetTodoByIdDB (db : Table) (_ctx : Context) (id : String) (net : Net) :
    Except GoError Todo :=
  match queryRow Context.Background net (selectById db id) with
  | .error err =>
      if err = .ErrNoRows then
        .error (errorfW ("todo not found with ID " ++ id ++ ": ") .ErrTodoNotFound)
      else
        .error (errorfV "failed to retrieve todo: " err)
  | .ok todo => .ok todo

/-- Function `CreateTodoDB` (todo.go:84). `rnd` are the random bytes `uuid.New()` reads, `now` is
the wall clock at the call, `tick1` and `tick2` the time that passes up to the first and
from the first to the second `time.Now()`. -/
def CreateTodoDB (db : Table) (ctx : Context) (todo : Todo) (rnd : List Nat)
    (now tick1 tick2 : Time) (net : Net) : Except GoError Todo × Table :=
  let todo := { todo with ID := uuidString (uuidNew rnd) }
  let todo := { todo with CreatedAt := now + tick1 }
  let todo :=
    if todo.Done then { todo with DoneAt := some (now + tick1 + tick2) }
    else { todo with DoneAt := none }
  match roundTrip ctx net with
  | some err => (.error err, db)
  | none => insertReturning db todo

/-- Function `UpdateTodoDB` (todo.go:107); the update runs under `context.Background()`. -/
def UpdateTodoDB (db : Table) (ctx : Context) (id : String) (todo : Todo)
    (now tick : Time) (net1 net2 : Net) : Except GoError Todo × Table :=
  match GetTodoByIdDB db ctx id net1 with
  | .error err => (.error err, db)
  | .ok existingTodo =>
      let todo := { todo with CreatedAt := existingTodo.CreatedAt }
      let todo :=
        if todo.Done then { todo with DoneAt := some (now + tick) }
        else { todo with DoneAt := none }
      match roundTrip Context.Background net2 with
      | some err => (.error err, db)
      | none => updateReturning db todo.Title todo.Desc todo.Done todo.DoneAt id

/-- Function `DeleteTodoByIdDB` (todo.go:134); the delete runs under `context.Background()`. -/
def DeleteTodoByIdDB (db : Table) (ctx : Context) (id : String) (net1 net2 : Net) :
    Option GoError × Table :=
  match GetTodoByIdDB db ctx id net1 with
  | .error err => (some err, db)
  | .ok _ =>
      match roundTrip Context.Background net2 with
      | some err => (some (errorfV "failed to delete todo: " err), db)
      | none => (none, deleteRows db id)

/-- Function `ChangeStatusDB` (todo.go:149); both statements run under `ctx`. -/
def ChangeStatusDB (db : Table) (ctx : Context) (id : String) (now tick : Time)
    (net1 net2 : Net) : Option GoError × Table :=
  match queryRow ctx net1 (selectDoneById db id) with
  | .error err =>
      if err = .ErrNoRows then
        (some (errorfW ("todo not found with ID " ++ id ++ ": ") .ErrTodoNotFound), db)
      else
        (some (errorfV "failed to retrieve todo: " err), db)
  | .ok done =>
      let newDoneStatus := !done
      let doneAt : Option Time := if newDoneStatus then some (now + tick) else none
      match roundTrip ctx net2 with
      | some err => (some (errorfV "failed to update todo status: " err), db)
      | none => (none, updateStatusRows db newDoneStatus doneAt id)

/-! ## Test doubles -/

/-- A store double in the manner of `MockTodoStore` (api_test.go:24): it records the name
of every method called on it and forwards to `st`. -/
def TodoStore.traced {σ : Type} (st : TodoStore σ) : TodoStore (σ × List String) where
  GetAllTodoDB ctx s :=
    ((st.GetAllTodoDB ctx s.1).1, ((st.GetAllTodoDB ctx s.1).2, s.2 ++ ["GetAllTodoDB"]))
  GetTodoByIdDB ctx id s :=
    ((st.GetTodoByIdDB ctx id s.1).1, ((st.GetTodoByIdDB ctx id s.1).2, s.2 ++ ["GetTodoByIdDB"]))
  CreateTodoDB ctx todo s :=
    ((st.CreateTodoDB ctx todo s.1).1, ((st.CreateTodoDB ctx todo s.1).2, s.2 ++ ["CreateTodoDB"]))
  UpdateTodoDB ctx id todo s :=
    ((st.UpdateTodoDB ctx id todo s.1).1,
      ((st.UpdateTodoDB ctx id todo s.1).2, s.2 ++ ["UpdateTodoDB"]))
  DeleteTodoByIdDB ctx id s :=
    ((st.DeleteTodoByIdDB ctx id s.1).1,
      ((st.DeleteTodoByIdDB ctx id s.1).2, s.2 ++ ["DeleteTodoByIdDB"]))
  ChangeStatusDB ctx id s :=
    ((st.ChangeStatusDB ctx id s.1).1, ((st.ChangeStatusDB ctx id s.1).2, s.2 ++ ["ChangeStatusDB"]))

/-- A store double whose every method fails with `err`, as the mocks of the
NotFound and DBError tests do; the state counts the calls. -/
def failingStore (err : GoError) : TodoStore Nat where
  GetAllTodoDB _ n := (.error err, n + 1)
  GetTodoByIdDB _ _ n := (.error err, n + 1)
  CreateTodoDB _ _ n := (.error err, n + 1)
  UpdateTodoDB _ _ _ n := (.error err, n + 1)
  DeleteTodoByIdDB _ _ n := (some err, n + 1)
  ChangeStatusDB _ _ n := (some err, n + 1)

/-- A decoder for sample requests: it accepts the one body of `TestUpdateTodo_DBError`
and rejects everything else the way encoding/json rejects text that is not JSON. -/
def sampleDecode (body : String) : Except GoError Todo :=
  if body = "\x7b\x7d" then .ok Todo.zero
  else if body = "" then .error (.other "EOF")
  else .error (.other "invalid character 'i' looking for beginning of value")

/-- The request `PUT /todo/999` with the given body. -/
def sampleRequest (body : String) : Request := ⟨Context.Background, false, "999", body⟩

/-! ## Handler and store together (main.go) -/

/-- What the surroundings contribute while one request is served by the real store: the
random bytes and clock readings, the outcome of the first and second database round trip,
and the events (schedule of the goroutines, failure of the cursor) of `GetAllTodoDB`. -/
structure Env where
  rnd : List Nat
  now : Time
  tick1 : Time
  tick2 : Time
  net1 : Net
  net2 : Net
  sched : List Step
  deriving DecidableEq, Repr

/-- The store `*Db` behind the interface `TodoStore`, as `NewTodoHandler(db)` receives it
(main.go:22); the state is the table. -/
def dbStore (env : Env) : TodoStore Table where
  GetAllTodoDB ctx db := (GetAllTodoDB db ctx env.net1 env.sched, db)
  GetTodoByIdDB ctx id db := (GetTodoByIdDB db ctx id env.net1, db)
  CreateTodoDB ctx todo db := CreateTodoDB db ctx todo env.rnd env.now env.tick1 env.tick2 env.net1
  UpdateTodoDB ctx id todo db := UpdateTodoDB db ctx id todo env.now env.tick1 env.net1 env.net2
  DeleteTodoByIdDB ctx id db := DeleteTodoByIdDB db ctx id env.net1 env.net2
  ChangeStatusDB ctx id db := ChangeStatusDB db ctx id env.now env.tick1 env.net1 env.net2

/-- The handler of main.go: the real store, with `decode` for encoding/json. -/
def NewTodoHandler (env : Env) (decode : String → Except GoError Todo) : APIHandler Table :=
  ⟨dbStore env, decode⟩

/-- A request served without any failure of the surroundings: time 10, one tick per clock
reading, random bytes 255, goroutines in program order. -/
def calmEnv : Env := ⟨List.replicate 16 255, 10, 1, 1, none, none, []⟩

/-- A request for the path id `id` with an empty body and a live context. -/
def requestFor (id : String) : Request := ⟨Context.Background, false, id, ""⟩

/-- A request for the path id `id` with body `body` whose context the client has already
cancelled. -/
def cancelledRequest (id body : String) : Request :=
  ⟨⟨some "context canceled"⟩, false, id, body⟩

/-! ## Response bodies as bytes (encoding/json) -/

/-- The encoders of encoding/json for the leaves, taken as given: a `Todo` object and a
quoted string. -/
structure JsonCodec where
  todo : Todo → String
  string : String → String

/-- The encoding of a `[]Todo`: `null` for the nil slice, otherwise the array of the
encoded elements. -/
def jsonSlice (enc : Todo → String) : Slice Todo → String
  | .nil => "null"
  | .data xs => "[" ++ ",".intercalate (xs.map enc) ++ "]"

/-- The bytes one body write puts on the wire; `Encode` ends its output with a newline. -/
def Written.render (c : JsonCodec) : Written → String
  | .errorMap msg => "\x7b\"error\":" ++ c.string msg ++ "\x7d\n"
  | .todo t => c.todo t ++ "\n"
  | .todos ts => jsonSlice c.todo ts ++ "\n"
  | .raw bytes => bytes

/-- A body write that carries a JSON array. -/
def Written.IsArray : Written → Prop
  | .todos (.data _) => True
  | _ => False

/-- The response a handler ends with after setting the content type, writing the status
`code` and then the body writes `body`. -/
def respond (code : Nat) (body : List Written) : ResponseWriter :=
  ⟨[("Content-Type", "application/json")], some code,
    [("Content-Type", "application/json")], body⟩

/-! ## Predicates used by the statements -/

/-- Row-level invariant: `done_at` is set exactly when `done` holds. -/
def Todo.Inv (t : Todo) : Prop := t.DoneAt.isSome = t.Done

instance (t : Todo) : Decidable t.Inv := by unfold Todo.Inv; infer_instance

/-- The invariant holds for every row of the table. -/
def TableInv (db : Table) : Prop := ∀ r ∈ db, r.Inv

/-- An error of the NotFound kind: `errors.Is(err, ErrTodoNotFound)`. -/
def IsNotFound (err : GoError) : Prop := errorsIs err .ErrTodoNotFound = true

instance (err : GoError) : Decidable (IsNotFound err) := by unfold IsNotFound; infer_instance

instance (db : Table) : Decidable (TableInv db) := by unfold TableInv; infer_instance

/-- Two rows for the examples: one open, one done. -/
def sampleTable : Table :=
  [⟨"a", "Test Todo 1", "Test Description 1", false, 1, none⟩,
   ⟨"b", "Test Todo 2", "Test Description 2", true, 2, some 3⟩]

/-- A client payload carrying an id, a creation time and a completion time of its own. -/
def samplePayload : Todo :=
  ⟨"00000000-0000-4000-8000-000000000000", "Buy milk", "2%", false, 7, some 9⟩

/-- The record CreateTodoDB builds from `samplePayload` at time 10 when the random source
delivers sixteen bytes 255. -/
def sampleCreated : Todo :=
  ⟨"ffffffff-ffff-4fff-bfff-ffffffffffff", "Buy milk", "2%", false, 11, none⟩

/-- Every row the loop of `GetAllTodoDB` holds: appended, waiting, or still on the cursor. -/
def Loop.content (l : Loop) : List Todo :=
  l.todos.toList ++ (l.pending ++ l.rest)

/-- The row `CreateTodoDB` sends to the database. -/
def createdRow (todo : Todo) (rnd : List Nat) (now tick1 tick2 : Time) : Todo :=
  { ID := uuidString (uuidNew rnd), Title := todo.Title, Desc := todo.Desc,
    Done := todo.Done, CreatedAt := now + tick1,
    DoneAt := if todo.Done then some (now + tick1 + tick2) else none }

/-- A row with id `id` is in the table. -/
def Present (db : Table) (id : String) : Prop := ∃ r ∈ db, r.ID = id


/-! ## Handler layer: error mapping -/

section Handlers

variable {σ : Type}

theorem errorsIs_self (e : GoError) : errorsIs e e = true := by
  cases e <;> simp [errorsIs]

theorem errorsIs_wrap (msg : String) (inner target : GoError)
    (h : errorsIs inner target = true) : errorsIs (.wrap msg inner) target = true := by
  simp [errorsIs, h]

theorem status_WriteHeader_new (c : Nat) (k v : String) :
    ((ResponseWriter.new.setHeader k v).WriteHeader c).status = c := by
  simp [ResponseWriter.new, ResponseWriter.setHeader, ResponseWriter.WriteHeader,
    ResponseWriter.status]

theorem status_encodeError (w : ResponseWriter) (c : Nat) (msg : String) :
    ((w.WriteHeader c).encodeError msg).status = (w.WriteHeader c).status := by
  unfold ResponseWriter.encodeError ResponseWriter.write ResponseWriter.WriteHeader
    ResponseWriter.status
  cases h : w.code <;> simp [h]

/-- C1: in GetTodoByID, UpdateTodo (body decoded), DeleteTodoByID and ChangeStatus, when
the store call returns the error `e`, the response status is 404 if
`errors.Is(e, ErrTodoNotFound)` and 500 otherwise; the sentinel itself and every error
wrapping it with `%w` are of the NotFound kind. -/
theorem C1_store_error_status (h : APIHandler σ) (r : Request) (s : σ) (e : GoError) :
    (∀ s1, h.todoStore.GetTodoByIdDB (Context.WithTimeout r.ctx r.expired) r.id s
          = (.error e, s1) →
        (h.GetTodoByID r s).1.status = if IsNotFound e then 404 else 500) ∧
    (∀ todo s1, h.decode r.body = .ok todo →
        h.todoStore.UpdateTodoDB (Context.WithTimeout r.ctx r.expired) r.id todo s
          = (.error e, s1) →
        (h.UpdateTodo r s).1.status = if IsNotFound e then 404 else 500) ∧
    (∀ s1, h.todoStore.DeleteTodoByIdDB (Context.WithTimeout r.ctx r.expired) r.id s
          = (some e, s1) →
        (h.DeleteTodoByID r s).1.status = if IsNotFound e then 404 else 500) ∧
    (∀ s1, h.todoStore.ChangeStatusDB (Context.WithTimeout r.ctx r.expired) r.id s
          = (some e, s1) →
        (h.ChangeStatus r s).1.status = if IsNotFound e then 404 else 500) ∧
    IsNotFound .ErrTodoNotFound ∧
    (∀ msg inner, IsNotFound inner → IsNotFound (.wrap msg inner)) := by
  refine ⟨?_, ?_, ?_, ?_, errorsIs_self _, fun msg inner hi => errorsIs_wrap msg inner _ hi⟩
  · intro s1 hs
    unfold APIHandler.GetTodoByID IsNotFound
    simp only [hs]
    by_cases hn : errorsIs e .ErrTodoNotFound = true
    · simp [hn, status_encodeError, status_WriteHeader_new, StatusNotFound]
    · simp [hn, status_encodeError, status_WriteHeader_new, StatusInternalServerError]
  · intro todo s1 hd hs
    unfold APIHandler.UpdateTodo IsNotFound
    simp only [hd, hs]
    by_cases hn : errorsIs e .ErrTodoNotFound = true
    · simp [hn, status_encodeError, status_WriteHeader_new, StatusNotFound]
    · simp [hn, status_encodeError, status_WriteHeader_new, StatusInternalServerError]
  · intro s1 hs
    unfold APIHandler.DeleteTodoByID IsNotFound
    simp only [hs]
    by_cases hn : errorsIs e .ErrTodoNotFound = true
    · simp [hn, status_encodeError, status_WriteHeader_new, StatusNotFound]
    · simp [hn, status_encodeError, status_WriteHeader_new, StatusInternalServerError]
  · intro s1 hs
    unfold APIHandler.ChangeStatus IsNotFound
    simp only [hs]
    by_cases hn : errorsIs e .ErrTodoNotFound = true
    · simp [hn, status_encodeError, status_WriteHeader_new, StatusNotFound]
    · simp [hn, status_encodeError, status_WriteHeader_new, StatusInternalServerError]

/-- Witness of C1: a store failing with ErrTodoNotFound wrapped by `fmt.Errorf` makes the
four handlers answer 404 on `PUT /todo/999` with body `{}`. -/
theorem C1_store_error_status_witness :
    ((⟨failingStore (errorfW "todo not found with ID 999: " .ErrTodoNotFound), sampleDecode⟩
        : APIHandler Nat).GetTodoByID (sampleRequest "\x7b\x7d") 0).1.status = 404 ∧
    ((⟨failingStore (errorfW "todo not found with ID 999: " .ErrTodoNotFound), sampleDecode⟩
        : APIHandler Nat).UpdateTodo (sampleRequest "\x7b\x7d") 0).1.status = 404 ∧
    ((⟨failingStore (errorfW "todo not found with ID 999: " .ErrTodoNotFound), sampleDecode⟩
        : APIHandler Nat).DeleteTodoByID (sampleRequest "\x7b\x7d") 0).1.status = 404 ∧
    ((⟨failingStore (errorfW "todo not found with ID 999: " .ErrTodoNotFound), sampleDecode⟩
        : APIHandler Nat).ChangeStatus (sampleRequest "\x7b\x7d") 0).1.status = 404 := by
  have key := C1_store_error_status
    (⟨failingStore (errorfW "todo not found with ID 999: " .ErrTodoNotFound), sampleDecode⟩
      : APIHandler Nat) (sampleRequest "\x7b\x7d") 0
    (errorfW "todo not found with ID 999: " .ErrTodoNotFound)
  have hnf : IsNotFound (errorfW "todo not found with ID 999: " .ErrTodoNotFound) :=
    key.2.2.2.2.2 _ _ key.2.2.2.2.1
  refine ⟨?_, ?_, ?_, ?_⟩
  · rw [key.1 1 rfl, if_pos hnf]
  · rw [key.2.1 Todo.zero 1 rfl rfl, if_pos hnf]
  · rw [key.2.2.1 1 rfl, if_pos hnf]
  · rw [key.2.2.2.1 1 rfl, if_pos hnf]

/-- C2: in CreateTodo and UpdateTodo, a body that does not decode gives status 400 and
the error text "Request body is empty", and no store method is called: the store state
is the one before the request, and a store double that records calls records none. -/
theorem C2_undecodable_body (h : APIHandler σ) (r : Request) (s : σ) (e : GoError)
    (hdec : h.decode r.body = .error e) :
    ((h.CreateTodo r s).1.status = 400 ∧
      (h.CreateTodo r s).1.body = [.errorMap "Request body is empty"] ∧
      (h.CreateTodo r s).2 = s) ∧
    ((h.UpdateTodo r s).1.status = 400 ∧
      (h.UpdateTodo r s).1.body = [.errorMap "Request body is empty"] ∧
      (h.UpdateTodo r s).2 = s) ∧
    (∀ log : List String,
      ((⟨h.todoStore.traced, h.decode⟩ : APIHandler (σ × List String)).CreateTodo r (s, log)).2
          = (s, log) ∧
      ((⟨h.todoStore.traced, h.decode⟩ : APIHandler (σ × List String)).UpdateTodo r (s, log)).2
          = (s, log)) := by
  refine ⟨?_, ?_, ?_⟩
  · unfold APIHandler.CreateTodo
    simp only [hdec]
    simp [ResponseWriter.new, ResponseWriter.setHeader, ResponseWriter.WriteHeader,
      ResponseWriter.status, ResponseWriter.encodeError, ResponseWriter.write, StatusBadRequest]
  · unfold APIHandler.UpdateTodo
    simp only [hdec]
    simp [ResponseWriter.new, ResponseWriter.setHeader, ResponseWriter.WriteHeader,
      ResponseWriter.status, ResponseWriter.encodeError, ResponseWriter.write, StatusBadRequest]
  · intro log
    unfold APIHandler.CreateTodo APIHandler.UpdateTodo
    simp only [hdec]
    simp

/-- Witness of C2: the body `invalid json` of TestCreate_JBodyError and
TestUpdateTodo_JBodyError. -/
theorem C2_undecodable_body_witness :
    ((⟨failingStore .ErrNoRows, sampleDecode⟩ : APIHandler Nat).CreateTodo
        (sampleRequest "invalid json") 0).1.status = 400 ∧
    ((⟨failingStore .ErrNoRows, sampleDecode⟩ : APIHandler Nat).UpdateTodo
        (sampleRequest "invalid json") 0).2 = 0 :=
  have key := C2_undecodable_body (⟨failingStore .ErrNoRows, sampleDecode⟩ : APIHandler Nat)
    (sampleRequest "invalid json") 0
    (.other "invalid character 'i' looking for beginning of value") rfl
  ⟨key.1.1, key.2.1.2.2⟩

end Handlers

/-! ## Store: the statements on the table -/

section Store

theorem roundTrip_background (net : Net) :
    roundTrip Context.Background net = net.map GoError.other := rfl

theorem GetTodoByIdDB_none (db : Table) (ctx : Context) (id : String) :
    GetTodoByIdDB db ctx id none =
      match db.find? (fun r => r.ID == id) with
      | some r => .ok r
      | none => .error (errorfW ("todo not found with ID " ++ id ++ ": ") .ErrTodoNotFound) := by
  unfold GetTodoByIdDB queryRow selectById
  rw [roundTrip_background]
  cases db.find? (fun r => r.ID == id) <;> simp

theorem GetTodoByIdDB_some (db : Table) (ctx : Context) (id msg : String) :
    GetTodoByIdDB db ctx id (some msg) =
      .error (errorfV "failed to retrieve todo: " (.other msg)) := by
  unfold GetTodoByIdDB queryRow
  rw [roundTrip_background]
  simp

theorem find?_updateRows (db : Table) (title desc : String) (done : Bool)
    (doneAt : Option Time) (id : String) :
    (updateRows db title desc done doneAt id).find? (fun r => r.ID == id) =
      (db.find? (fun r => r.ID == id)).map
        (fun r => { r with Title := title, Desc := desc, Done := done, DoneAt := doneAt }) := by
  induction db with
  | nil => rfl
  | cons a t ih =>
    unfold updateRows at ih ⊢
    by_cases h : a.ID = id
    · simp [List.find?, h]
    · have hb : (a.ID == id) = false := by simpa using h
      rw [List.map_cons, List.find?_cons, List.find?_cons, ih]
      simp [hb]

theorem find?_eq_none_of_absent (db : Table) (id : String) (h : ¬ Present db id) :
    db.find? (fun r => r.ID == id) = none := by
  rw [List.find?_eq_none]
  intro r hr hid
  exact h ⟨r, hr, by simpa using hid⟩

theorem find?_isSome_of_present (db : Table) (id : String) (h : Present db id) :
    ∃ r, db.find? (fun r => r.ID == id) = some r ∧ r ∈ db ∧ r.ID = id := by
  obtain ⟨r0, hr0, hid⟩ := h
  cases hf : db.find? (fun r => r.ID == id) with
  | none =>
    rw [List.find?_eq_none] at hf
    exact absurd (by simpa using hid) (hf r0 hr0)
  | some r =>
    exact ⟨r, rfl, List.mem_of_find?_eq_some hf, by simpa using List.find?_some hf⟩

theorem TableInv_updateRows (db : Table) (title desc : String) (done : Bool)
    (doneAt : Option Time) (id : String) (hinv : TableInv db) (hd : doneAt.isSome = done) :
    TableInv (updateRows db title desc done doneAt id) := by
  intro r hr
  unfold updateRows at hr
  obtain ⟨r0, hr0, rfl⟩ := List.mem_map.1 hr
  by_cases h : r0.ID = id
  · simp [h, Todo.Inv, hd]
  · simpa [h] using hinv r0 hr0

theorem TableInv_updateStatusRows (db : Table) (done : Bool)
    (doneAt : Option Time) (id : String) (hinv : TableInv db) (hd : doneAt.isSome = done) :
    TableInv (updateStatusRows db done doneAt id) := by
  intro r hr
  unfold updateStatusRows at hr
  obtain ⟨r0, hr0, rfl⟩ := List.mem_map.1 hr
  by_cases h : r0.ID = id
  · simp [h, Todo.Inv, hd]
  · simpa [h] using hinv r0 hr0

theorem TableInv_deleteRows (db : Table) (id : String) (hinv : TableInv db) :
    TableInv (deleteRows db id) :=
  fun r hr => hinv r (List.mem_filter.1 hr).1

theorem createdRow_Inv (todo : Todo) (rnd : List Nat) (now tick1 tick2 : Time) :
    (createdRow todo rnd now tick1 tick2).Inv := by
  unfold createdRow Todo.Inv
  cases todo.Done <;> simp

/-- Function `CreateTodoDB` either leaves the table alone and fails, or inserts `createdRow`. -/
theorem CreateTodoDB_cases (db : Table) (ctx : Context) (todo : Todo) (rnd : List Nat)
    (now tick1 tick2 : Time) (net : Net) :
    (∃ err, CreateTodoDB db ctx todo rnd now tick1 tick2 net = (.error err, db)) ∨
    ((ctx.Err = none ∧ net = none ∧ ¬ Present db (uuidString (uuidNew rnd))) ∧
      CreateTodoDB db ctx todo rnd now tick1 tick2 net =
        (.ok (createdRow todo rnd now tick1 tick2),
          db ++ [createdRow todo rnd now tick1 tick2])) := by
  unfold CreateTodoDB roundTrip
  cases hctx : ctx.Err with
  | some e => exact Or.inl ⟨_, rfl⟩
  | none =>
    cases net with
    | some m => exact Or.inl ⟨_, rfl⟩
    | none =>
      by_cases hp : Present db (uuidString (uuidNew rnd))
      · left
        have : db.any (fun r => r.ID == uuidString (uuidNew rnd)) = true := by
          obtain ⟨r, hr, hid⟩ := hp
          exact List.any_eq_true.2 ⟨r, hr, by simpa using hid⟩
        cases hd : todo.Done <;> simp [insertReturning, this]
      · right
        have : db.any (fun r => r.ID == uuidString (uuidNew rnd)) = false := by
          rw [Bool.eq_false_iff]
          intro hany
          obtain ⟨r, hr, hid⟩ := List.any_eq_true.1 hany
          exact hp ⟨r, hr, by simpa using hid⟩
        refine ⟨⟨rfl, rfl, hp⟩, ?_⟩
        cases hd : todo.Done <;> simp [insertReturning, this, createdRow, hd]

/-- What a successful `CreateTodoDB` returned and stored. -/
theorem CreateTodoDB_ok (db : Table) (ctx : Context) (todo : Todo) (rnd : List Nat)
    (now tick1 tick2 : Time) (net : Net) (row : Todo) (db1 : Table)
    (hok : CreateTodoDB db ctx todo rnd now tick1 tick2 net = (.ok row, db1)) :
    ¬ Present db (uuidString (uuidNew rnd)) ∧ row = createdRow todo rnd now tick1 tick2 ∧
      db1 = db ++ [createdRow todo rnd now tick1 tick2] := by
  rcases CreateTodoDB_cases db ctx todo rnd now tick1 tick2 net with ⟨err, h⟩ | ⟨⟨_, _, hp⟩, h⟩
  · have h2 := h.symm.trans hok
    simp only [Prod.mk.injEq, reduceCtorEq, false_and] at h2
  · have h2 := h.symm.trans hok
    simp only [Prod.mk.injEq, Except.ok.injEq] at h2
    exact ⟨hp, h2.1.symm, h2.2.symm⟩

/-- Function `UpdateTodoDB` either leaves the table alone and fails, or rewrites the rows with
id `id` and returns the first of them. -/
theorem UpdateTodoDB_cases (db : Table) (ctx : Context) (id : String) (todo : Todo)
    (now tick : Time) (net1 net2 : Net) :
    (∃ err, UpdateTodoDB db ctx id todo now tick net1 net2 = (.error err, db)) ∨
    (∃ e, (net1 = none ∧ net2 = none ∧ db.find? (fun r => r.ID == id) = some e) ∧
      UpdateTodoDB db ctx id todo now tick net1 net2 =
        (.ok { e with Title := todo.Title, Desc := todo.Desc, Done := todo.Done,
                      DoneAt := if todo.Done then some (now + tick) else none },
          updateRows db todo.Title todo.Desc todo.Done
            (if todo.Done then some (now + tick) else none) id)) := by
  unfold UpdateTodoDB
  cases net1 with
  | some m => rw [GetTodoByIdDB_some]; exact Or.inl ⟨_, rfl⟩
  | none =>
    rw [GetTodoByIdDB_none]
    cases hf : db.find? (fun r => r.ID == id) with
    | none => exact Or.inl ⟨_, rfl⟩
    | some e =>
      cases net2 with
      | some m => exact Or.inl ⟨_, rfl⟩
      | none =>
        right
        refine ⟨e, ⟨rfl, rfl, rfl⟩, ?_⟩
        cases hd : todo.Done <;>
          simp [roundTrip_background, updateReturning, find?_updateRows, hf]

/-- Function `DeleteTodoByIdDB` either leaves the table alone and fails, or deletes. -/
theorem DeleteTodoByIdDB_cases (db : Table) (ctx : Context) (id : String) (net1 net2 : Net) :
    (∃ err, DeleteTodoByIdDB db ctx id net1 net2 = (some err, db)) ∨
    (∃ e, (net1 = none ∧ net2 = none ∧ db.find? (fun r => r.ID == id) = some e) ∧
      DeleteTodoByIdDB db ctx id net1 net2 = (none, deleteRows db id)) := by
  unfold DeleteTodoByIdDB
  cases net1 with
  | some m => rw [GetTodoByIdDB_some]; exact Or.inl ⟨_, rfl⟩
  | none =>
    rw [GetTodoByIdDB_none]
    cases hf : db.find? (fun r => r.ID == id) with
    | none => exact Or.inl ⟨_, rfl⟩
    | some e =>
      cases net2 with
      | some m => exact Or.inl ⟨_, rfl⟩
      | none => exact Or.inr ⟨e, ⟨rfl, rfl, rfl⟩, rfl⟩

/-- Function `ChangeStatusDB` either leaves the table alone and fails, or writes the flipped
`done` of the first row with id `id` and the matching `done_at`. -/
theorem ChangeStatusDB_cases (db : Table) (ctx : Context) (id : String) (now tick : Time)
    (net1 net2 : Net) :
    (∃ err, ChangeStatusDB db ctx id now tick net1 net2 = (some err, db)) ∨
    (∃ e, (ctx.Err = none ∧ net1 = none ∧ net2 = none ∧
        db.find? (fun r => r.ID == id) = some e) ∧
      ChangeStatusDB db ctx id now tick net1 net2 =
        (none, updateStatusRows db (!e.Done)
          (if (!e.Done) = true then some (now + tick) else none) id)) := by
  unfold ChangeStatusDB queryRow roundTrip selectDoneById
  cases hctx : ctx.Err with
  | some m => exact Or.inl ⟨errorfV "failed to retrieve todo: " (.other m), by simp⟩
  | none =>
    cases net1 with
    | some m => exact Or.inl ⟨errorfV "failed to retrieve todo: " (.other m), by simp⟩
    | none =>
      cases hf : db.find? (fun r => r.ID == id) with
      | none =>
        exact Or.inl ⟨errorfW ("todo not found with ID " ++ id ++ ": ") .ErrTodoNotFound,
          by simp⟩
      | some e =>
        cases net2 with
        | some m =>
          exact Or.inl ⟨errorfV "failed to update todo status: " (.other m), by simp⟩
        | none => exact Or.inr ⟨e, ⟨rfl, rfl, rfl, rfl⟩, by simp⟩

/-! ### Create -/

theorem uuidString_length (u : List Nat) : (uuidString u).length = 36 := by
  simp [uuidString, hexByte, String.length]

theorem uuidString_ne_empty (u : List Nat) : uuidString u ≠ "" := by
  intro h
  have := uuidString_length u
  rw [h] at this
  exact absurd this (by decide)

/-- C3: the invariant "done_at is set exactly when done holds". From any table whose rows
all satisfy it: the row CreateTodoDB writes satisfies it and the table after CreateTodoDB
does, and the tables after UpdateTodoDB, ChangeStatusDB and DeleteTodoByIdDB do, for every
input and every outcome of the database calls. -/
theorem C3_done_at_iff_done (db : Table) (hinv : TableInv db) :
    (∀ ctx todo rnd now tick1 tick2 net,
      (∀ row db1, CreateTodoDB db ctx todo rnd now tick1 tick2 net = (.ok row, db1) →
        row.Inv ∧ row ∈ db1) ∧
      TableInv (CreateTodoDB db ctx todo rnd now tick1 tick2 net).2) ∧
    (∀ ctx id todo now tick net1 net2,
      TableInv (UpdateTodoDB db ctx id todo now tick net1 net2).2) ∧
    (∀ ctx id now tick net1 net2,
      TableInv (ChangeStatusDB db ctx id now tick net1 net2).2) ∧
    (∀ ctx id net1 net2, TableInv (DeleteTodoByIdDB db ctx id net1 net2).2) := by
  refine ⟨?_, ?_, ?_, ?_⟩
  · intro ctx todo rnd now tick1 tick2 net
    refine ⟨fun row db1 hc => ?_, ?_⟩
    · obtain ⟨_, hrow, hdb⟩ := CreateTodoDB_ok _ _ _ _ _ _ _ _ _ _ hc
      rw [hrow, hdb]
      exact ⟨createdRow_Inv _ _ _ _ _, by simp⟩
    · rcases CreateTodoDB_cases db ctx todo rnd now tick1 tick2 net with ⟨err, h⟩ | ⟨_, h⟩
      · rw [h]; exact hinv
      · rw [h]
        intro r hr
        rcases List.mem_append.1 hr with hr | hr
        · exact hinv r hr
        · rw [List.mem_singleton.1 hr]
          exact createdRow_Inv _ _ _ _ _
  · intro ctx id todo now tick net1 net2
    rcases UpdateTodoDB_cases db ctx id todo now tick net1 net2 with ⟨err, h⟩ | ⟨e, _, h⟩
    · rw [h]; exact hinv
    · rw [h]
      exact TableInv_updateRows _ _ _ _ _ _ hinv (by cases todo.Done <;> simp)
  · intro ctx id now tick net1 net2
    rcases ChangeStatusDB_cases db ctx id now tick net1 net2 with ⟨err, h⟩ | ⟨e, _, h⟩
    · rw [h]; exact hinv
    · rw [h]
      exact TableInv_updateStatusRows _ _ _ _ hinv (by cases e.Done <;> simp)
  · intro ctx id net1 net2
    rcases DeleteTodoByIdDB_cases db ctx id net1 net2 with ⟨err, h⟩ | ⟨e, _, h⟩
    · rw [h]; exact hinv
    · rw [h]
      exact TableInv_deleteRows _ _ hinv

/-- Witness of C3: the sample table satisfies the invariant, and so does the table after
toggling row "b", after updating row "a" to done, after deleting "a" and after a create. -/
theorem C3_done_at_iff_done_witness :
    TableInv sampleTable ∧
    TableInv (ChangeStatusDB sampleTable Context.Background "b" 10 1 none none).2 ∧
    TableInv (UpdateTodoDB sampleTable Context.Background "a"
      { samplePayload with Done := true } 10 1 none none).2 ∧
    TableInv (DeleteTodoByIdDB sampleTable Context.Background "a" none none).2 ∧
    TableInv (CreateTodoDB sampleTable Context.Background samplePayload
      (List.replicate 16 0) 10 1 1 none).2 :=
  have key := C3_done_at_iff_done sampleTable (by decide)
  ⟨by decide, key.2.2.1 _ _ _ _ _ _, key.2.1 _ _ _ _ _ _ _, key.2.2.2 _ _ _ _,
    (key.1 _ _ _ _ _ _ _).2⟩

/-- C4 fails as stated: the client sends the very string the generator produces next
(random bytes all zero), and the record returned carries the id the client supplied. -/
theorem C4_counterexample :
    ∃ row db1,
      CreateTodoDB [] Context.Background samplePayload (List.replicate 16 0) 10 1 1 none
        = (.ok row, db1) ∧
      row.ID = samplePayload.ID :=
  ⟨_, _, rfl, rfl⟩

/-- C4, amended: a successful CreateTodoDB(x) returns a record whose id is the string of
the UUID the store generated (36 characters, so not empty; not the id of any row already
in the table; different from x.id unless x.id is that very string), whose created_at is
the clock reading taken in the call, at or after the call time, whose done_at is set iff
x.done, and whose title, description and done are those of x; the id, created_at and
done_at the client supplied do not influence the result. -/
theorem C4_created_record (db : Table) (ctx : Context) (x : Todo) (rnd : List Nat)
    (now tick1 tick2 : Time) (net : Net) (row : Todo) (db1 : Table)
    (hok : CreateTodoDB db ctx x rnd now tick1 tick2 net = (.ok row, db1)) :
    row.ID = uuidString (uuidNew rnd) ∧ row.ID ≠ "" ∧ row.ID.length = 36 ∧
    ¬ Present db row.ID ∧
    (x.ID ≠ uuidString (uuidNew rnd) → row.ID ≠ x.ID) ∧
    row.CreatedAt = now + tick1 ∧ now ≤ row.CreatedAt ∧
    (row.DoneAt.isSome = x.Done) ∧
    (∀ t, row.DoneAt = some t → row.CreatedAt ≤ t) ∧
    row.Title = x.Title ∧ row.Desc = x.Desc ∧ row.Done = x.Done ∧
    (∀ id createdAt doneAt,
      CreateTodoDB db ctx { x with ID := id, CreatedAt := createdAt, DoneAt := doneAt }
        rnd now tick1 tick2 net = (.ok row, db1)) := by
  obtain ⟨hp, hrow, hdb⟩ := CreateTodoDB_ok db ctx x rnd now tick1 tick2 net row db1 hok
  have hid : row.ID = uuidString (uuidNew rnd) := by rw [hrow, createdRow]
  have hcr : row.CreatedAt = now + tick1 := by rw [hrow, createdRow]
  have hda : row.DoneAt = if x.Done then some (now + tick1 + tick2) else none := by
    rw [hrow, createdRow]
  rw [hid, hcr, hda]
  refine ⟨rfl, uuidString_ne_empty _, uuidString_length _, hp, fun hne => Ne.symm hne, rfl,
    Nat.le_add_right _ _, ?_, ?_, ?_, ?_, ?_, ?_⟩
  · cases x.Done <;> simp
  · intro t ht
    split at ht
    · cases ht
      exact Nat.le_add_right _ _
    · cases ht
  · rw [hrow, createdRow]
  · rw [hrow, createdRow]
  · rw [hrow, createdRow]
  · intro id createdAt doneAt
    rw [← hok]
    simp only [CreateTodoDB]

/-- Witness of C4: the payload of the spec scenario, sent with an id and timestamps of
its own, on the sample table at time 10. -/
theorem C4_created_record_witness :
    CreateTodoDB sampleTable Context.Background samplePayload (List.replicate 16 255) 10 1 1 none
      = (.ok sampleCreated, sampleTable ++ [sampleCreated]) ∧
    sampleCreated.ID ≠ "" ∧ sampleCreated.ID ≠ samplePayload.ID ∧
    10 ≤ sampleCreated.CreatedAt :=
  have key := C4_created_record sampleTable Context.Background samplePayload
    (List.replicate 16 255) 10 1 1 none sampleCreated (sampleTable ++ [sampleCreated]) (by rfl)
  ⟨by rfl, key.2.1, key.2.2.2.2.1 (by decide), key.2.2.2.2.2.2.1⟩

/-- C5: if CreateTodoDB(x) succeeds with record r, then GetTodoByIdDB(r.id) on the
resulting table, the database answering the query, succeeds and returns r, equal in
every field. -/
theorem C5_create_then_get (db : Table) (ctx ctx2 : Context) (x : Todo) (rnd : List Nat)
    (now tick1 tick2 : Time) (net : Net) (r : Todo) (db1 : Table)
    (hok : CreateTodoDB db ctx x rnd now tick1 tick2 net = (.ok r, db1)) :
    GetTodoByIdDB db1 ctx2 r.ID none = .ok r := by
  obtain ⟨hp, hrow, hdb⟩ := CreateTodoDB_ok db ctx x rnd now tick1 tick2 net r db1 hok
  have hid : r.ID = uuidString (uuidNew rnd) := by rw [hrow, createdRow]
  rw [hid, hdb, GetTodoByIdDB_none, List.find?_append, find?_eq_none_of_absent db _ hp, ← hrow]
  simp [hid]

/-- Witness of C5: create on the sample table, then look the new id up. -/
theorem C5_create_then_get_witness :
    CreateTodoDB sampleTable Context.Background samplePayload (List.replicate 16 255) 10 1 1 none
      = (.ok sampleCreated, sampleTable ++ [sampleCreated]) ∧
    GetTodoByIdDB (sampleTable ++ [sampleCreated]) Context.Background sampleCreated.ID none
      = .ok sampleCreated :=
  ⟨by rfl, C5_create_then_get sampleTable Context.Background Context.Background samplePayload
    (List.replicate 16 255) 10 1 1 none sampleCreated (sampleTable ++ [sampleCreated]) (by rfl)⟩

/-! ### Toggle -/

theorem find?_updateStatusRows (db : Table) (done : Bool) (doneAt : Option Time)
    (id : String) :
    (updateStatusRows db done doneAt id).find? (fun r => r.ID == id) =
      (db.find? (fun r => r.ID == id)).map
        (fun r => { r with Done := done, DoneAt := doneAt }) := by
  induction db with
  | nil => rfl
  | cons a t ih =>
    unfold updateStatusRows at ih ⊢
    by_cases h : a.ID = id
    · simp [List.find?, h]
    · have hb : (a.ID == id) = false := by simpa using h
      rw [List.map_cons, List.find?_cons, List.find?_cons, ih]
      simp [hb]

theorem GetTodoByIdDB_ok_iff (db : Table) (ctx : Context) (id : String) (e : Todo) :
    GetTodoByIdDB db ctx id none = .ok e ↔ db.find? (fun r => r.ID == id) = some e := by
  rw [GetTodoByIdDB_none]
  cases db.find? (fun r => r.ID == id) <;> simp

theorem ChangeStatusDB_ok (db : Table) (ctx : Context) (id : String) (now tick : Time)
    (e : Todo) (hctx : ctx.Err = none) (he : db.find? (fun r => r.ID == id) = some e) :
    ChangeStatusDB db ctx id now tick none none =
      (none, updateStatusRows db (!e.Done)
        (if (!e.Done) = true then some (now + tick) else none) id) := by
  unfold ChangeStatusDB queryRow roundTrip selectDoneById
  simp [hctx, he]

/-- C6 fails as stated: row "b" of the sample table is done with done_at 3; after two
toggles, at times 11 and 21, it is done again but its done_at is 21, not the original 3. -/
theorem C6_counterexample :
    ∃ db1 db2 e e2,
      GetTodoByIdDB sampleTable Context.Background "b" none = .ok e ∧
      ChangeStatusDB sampleTable Context.Background "b" 10 1 none none = (none, db1) ∧
      ChangeStatusDB db1 Context.Background "b" 20 1 none none = (none, db2) ∧
      GetTodoByIdDB db2 Context.Background "b" none = .ok e2 ∧
      e.DoneAt = some 3 ∧ e2.DoneAt = some 21 ∧ e2.DoneAt ≠ e.DoneAt :=
  ⟨_, _, ⟨"b", "Test Todo 2", "Test Description 2", true, 2, some 3⟩,
    ⟨"b", "Test Todo 2", "Test Description 2", true, 2, some 21⟩,
    by rfl, by rfl, by rfl, by rfl, rfl, rfl, by decide⟩

/-- C6, amended: for an existing todo, two ChangeStatusDB calls in sequence on its id,
the database calls going through, both succeed and leave it with its original done and
every other field but done_at unchanged; done_at is null again when the original done
was false (its original value, the invariant holding), and is the clock reading of the
second call, not the original value, when the original done was true. -/
theorem C6_toggle_twice (db : Table) (ctx1 ctx2 : Context) (id : String)
    (now1 tick1 now2 tick2 : Time) (e : Todo)
    (hctx1 : ctx1.Err = none) (hctx2 : ctx2.Err = none)
    (he : GetTodoByIdDB db ctx1 id none = .ok e) :
    ∃ db1 db2,
      ChangeStatusDB db ctx1 id now1 tick1 none none = (none, db1) ∧
      ChangeStatusDB db1 ctx2 id now2 tick2 none none = (none, db2) ∧
      GetTodoByIdDB db2 ctx2 id none =
        .ok { e with DoneAt := if e.Done then some (now2 + tick2) else none } ∧
      (e.Done = false → e.Inv → GetTodoByIdDB db2 ctx2 id none = .ok e) := by
  rw [GetTodoByIdDB_ok_iff] at he
  have h1 := ChangeStatusDB_ok db ctx1 id now1 tick1 e hctx1 he
  have he1 := find?_updateStatusRows db (!e.Done)
    (if (!e.Done) = true then some (now1 + tick1) else none) id
  rw [he, Option.map_some'] at he1
  have h2 := ChangeStatusDB_ok _ ctx2 id now2 tick2 _ hctx2 he1
  have he2 := find?_updateStatusRows (updateStatusRows db (!e.Done)
    (if (!e.Done) = true then some (now1 + tick1) else none) id) e.Done
    (if e.Done = true then some (now2 + tick2) else none) id
  rw [he1, Option.map_some'] at he2
  simp only [Bool.not_not] at h2
  refine ⟨_, _, h1, h2, ?_, ?_⟩
  · rw [GetTodoByIdDB_ok_iff, he2]
  · intro hd hinv
    rw [GetTodoByIdDB_ok_iff, he2]
    unfold Todo.Inv at hinv
    rw [hd] at hinv
    have hn : e.DoneAt = none := by simpa using hinv
    cases e
    simp_all

/-- Witness of C6: row "a" of the sample table, open, toggled at times 11 and 21. -/
theorem C6_toggle_twice_witness :
    ∃ db1 db2,
      ChangeStatusDB sampleTable Context.Background "a" 10 1 none none = (none, db1) ∧
      ChangeStatusDB db1 Context.Background "a" 20 1 none none = (none, db2) ∧
      GetTodoByIdDB db2 Context.Background "a" none =
        .ok ⟨"a", "Test Todo 1", "Test Description 1", false, 1, none⟩ :=
  have key := C6_toggle_twice sampleTable Context.Background Context.Background "a" 10 1 20 1
    ⟨"a", "Test Todo 1", "Test Description 1", false, 1, none⟩ rfl rfl (by rfl)
  key.imp fun _ h => h.imp fun _ h2 => ⟨h2.1, h2.2.1, h2.2.2.2 rfl (by decide)⟩

/-! ### Delete and absent ids -/

theorem isNotFound_errorfW (pre : String) : IsNotFound (errorfW pre .ErrTodoNotFound) := by
  unfold IsNotFound errorfW
  exact errorsIs_wrap _ _ _ (errorsIs_self _)

theorem GetTodoByIdDB_absent (db : Table) (ctx : Context) (id : String)
    (habs : ¬ Present db id) :
    GetTodoByIdDB db ctx id none =
      .error (errorfW ("todo not found with ID " ++ id ++ ": ") .ErrTodoNotFound) := by
  rw [GetTodoByIdDB_none, find?_eq_none_of_absent db id habs]

theorem find?_deleteRows_of_ne (db : Table) (id j : String) (hj : j ≠ id) :
    (deleteRows db id).find? (fun r => r.ID == j) = db.find? (fun r => r.ID == j) := by
  unfold deleteRows
  induction db with
  | nil => rfl
  | cons a t ih =>
    by_cases ha : a.ID = id
    · subst ha
      have hne : (a.ID == j) = false := by
        simp only [beq_eq_false_iff_ne, ne_eq]
        exact fun h => hj h.symm
      simp [List.filter_cons, List.find?_cons, hne, ih]
    · have hb : (a.ID != id) = true := by simpa using ha
      rw [List.filter_cons, if_pos hb, List.find?_cons, List.find?_cons, ih]

theorem not_present_deleteRows (db : Table) (id : String) : ¬ Present (deleteRows db id) id := by
  rintro ⟨r, hr, hid⟩
  have := (List.mem_filter.1 hr).2
  simp [hid] at this

/-- C7: when the table has a row with id i and DeleteTodoByIdDB(i) succeeds, then in the
resulting table GetTodoByIdDB(i), the database answering, fails with an error of the
NotFound kind, no row has id i, and the rows with another id are the same as before: the
same rows, in the same order, each lookup by another id answering as before. -/
theorem C7_delete_removes (db : Table) (ctx ctx2 : Context) (id : String) (net1 net2 : Net)
    (db1 : Table) (_hpres : Present db id)
    (hok : DeleteTodoByIdDB db ctx id net1 net2 = (none, db1)) :
    (∃ err, GetTodoByIdDB db1 ctx2 id none = .error err ∧ IsNotFound err) ∧
    ¬ Present db1 id ∧
    (∀ r, r.ID ≠ id → (r ∈ db1 ↔ r ∈ db)) ∧
    db1 = db.filter (fun r => r.ID != id) ∧
    (∀ j, j ≠ id → GetTodoByIdDB db1 ctx2 j none = GetTodoByIdDB db ctx2 j none) := by
  have hdb : db1 = deleteRows db id := by
    rcases DeleteTodoByIdDB_cases db ctx id net1 net2 with ⟨err, h⟩ | ⟨e, _, h⟩
    · have h2 := h.symm.trans hok
      simp only [Prod.mk.injEq, reduceCtorEq, false_and] at h2
    · have h2 := h.symm.trans hok
      simp only [Prod.mk.injEq, true_and] at h2
      exact h2.symm
  subst hdb
  refine ⟨⟨_, GetTodoByIdDB_absent _ ctx2 id (not_present_deleteRows db id),
    isNotFound_errorfW _⟩, not_present_deleteRows db id, ?_, rfl, ?_⟩
  · intro r hr
    unfold deleteRows
    simp [List.mem_filter, hr]
  · intro j hj
    rw [GetTodoByIdDB_none, GetTodoByIdDB_none, find?_deleteRows_of_ne db id j hj]

/-- Witness of C7: deleting row "a" of the sample table. -/
theorem C7_delete_removes_witness :
    Present sampleTable "a" ∧
    DeleteTodoByIdDB sampleTable Context.Background "a" none none
      = (none, [⟨"b", "Test Todo 2", "Test Description 2", true, 2, some 3⟩]) ∧
    ¬ Present [⟨"b", "Test Todo 2", "Test Description 2", true, 2, some 3⟩] "a" :=
  have hp : Present sampleTable "a" := ⟨_, List.mem_cons_self _ _, rfl⟩
  ⟨hp, by rfl,
    (C7_delete_removes sampleTable Context.Background Context.Background "a" none none
      [⟨"b", "Test Todo 2", "Test Description 2", true, 2, some 3⟩] hp (by rfl)).2.1⟩

/-- C8: for an id that no row of the table has, GetTodoByIdDB, UpdateTodoDB (any payload),
DeleteTodoByIdDB and ChangeStatusDB, their lookup being answered by the database, each
return an error for which errors.Is(err, ErrTodoNotFound) holds, and none of them changes
the table, whatever the outcome of the database calls. -/
theorem C8_absent_id_not_found (db : Table) (id : String) (habs : ¬ Present db id) :
    (∀ ctx, ∃ err, GetTodoByIdDB db ctx id none = .error err ∧ IsNotFound err) ∧
    (∀ ctx todo now tick net2, ∃ err,
      UpdateTodoDB db ctx id todo now tick none net2 = (.error err, db) ∧ IsNotFound err) ∧
    (∀ ctx net2, ∃ err,
      DeleteTodoByIdDB db ctx id none net2 = (some err, db) ∧ IsNotFound err) ∧
    (∀ ctx now tick net2, ctx.Err = none → ∃ err,
      ChangeStatusDB db ctx id now tick none net2 = (some err, db) ∧ IsNotFound err) ∧
    (∀ ctx todo now tick net1 net2, (UpdateTodoDB db ctx id todo now tick net1 net2).2 = db) ∧
    (∀ ctx net1 net2, (DeleteTodoByIdDB db ctx id net1 net2).2 = db) ∧
    (∀ ctx now tick net1 net2, (ChangeStatusDB db ctx id now tick net1 net2).2 = db) := by
  have hf := find?_eq_none_of_absent db id habs
  refine ⟨?_, ?_, ?_, ?_, ?_, ?_, ?_⟩
  · intro ctx
    exact ⟨_, GetTodoByIdDB_absent db ctx id habs, isNotFound_errorfW _⟩
  · intro ctx todo now tick net2
    refine ⟨_, ?_, isNotFound_errorfW ("todo not found with ID " ++ id ++ ": ")⟩
    unfold UpdateTodoDB
    rw [GetTodoByIdDB_absent db ctx id habs]
  · intro ctx net2
    refine ⟨_, ?_, isNotFound_errorfW ("todo not found with ID " ++ id ++ ": ")⟩
    unfold DeleteTodoByIdDB
    rw [GetTodoByIdDB_absent db ctx id habs]
  · intro ctx now tick net2 hctx
    refine ⟨_, ?_, isNotFound_errorfW ("todo not found with ID " ++ id ++ ": ")⟩
    unfold ChangeStatusDB queryRow roundTrip selectDoneById
    simp [hctx, hf]
  · intro ctx todo now tick net1 net2
    rcases UpdateTodoDB_cases db ctx id todo now tick net1 net2 with ⟨err, h⟩ | ⟨e, ⟨_, _, he⟩, h⟩
    · rw [h]
    · rw [hf] at he; cases he
  · intro ctx net1 net2
    rcases DeleteTodoByIdDB_cases db ctx id net1 net2 with ⟨err, h⟩ | ⟨e, ⟨_, _, he⟩, h⟩
    · rw [h]
    · rw [hf] at he; cases he
  · intro ctx now tick net1 net2
    rcases ChangeStatusDB_cases db ctx id now tick net1 net2 with
      ⟨err, h⟩ | ⟨e, ⟨_, _, _, he⟩, h⟩
    · rw [h]
    · rw [hf] at he; cases he

/-- Witness of C8: the id "999" on the sample table. -/
theorem C8_absent_id_not_found_witness :
    ¬ Present sampleTable "999" ∧
    (∃ err, ChangeStatusDB sampleTable Context.Background "999" 10 1 none none
      = (some err, sampleTable) ∧ IsNotFound err) :=
  have habs : ¬ Present sampleTable "999" := by
    rintro ⟨r, hr, hid⟩
    simp only [sampleTable, List.mem_cons, List.mem_singleton, List.not_mem_nil, or_false] at hr
    rcases hr with rfl | rfl <;> exact absurd hid (by decide)
  ⟨habs, (C8_absent_id_not_found sampleTable "999" habs).2.2.2.1 Context.Background 10 1 none
    rfl⟩

/-! ### Update -/

/-- C10: for an existing todo e with id i and any payload p, a successful
UpdateTodoDB(i, p) returns a record with id i and e's created_at, with title, description
and done of p, and with done_at the clock reading of the call if p.done and null if not;
this record is what a lookup of i then finds; p.id, p.created_at and p.done_at have no
influence, and e.done and e.done_at do not enter the result. -/
theorem C10_update_record (db : Table) (ctx ctx2 : Context) (id : String) (p : Todo)
    (now tick : Time) (net1 net2 : Net) (e row : Todo) (db1 : Table)
    (he : GetTodoByIdDB db ctx id none = .ok e)
    (hok : UpdateTodoDB db ctx id p now tick net1 net2 = (.ok row, db1)) :
    row = { ID := e.ID, Title := p.Title, Desc := p.Desc, Done := p.Done,
            CreatedAt := e.CreatedAt,
            DoneAt := if p.Done then some (now + tick) else none } ∧
    row.ID = id ∧
    (∀ t, row.DoneAt = some t → now ≤ t) ∧
    GetTodoByIdDB db1 ctx2 id none = .ok row ∧
    (∀ pid pcreated pdoneAt,
      UpdateTodoDB db ctx id { p with ID := pid, CreatedAt := pcreated, DoneAt := pdoneAt }
        now tick net1 net2 = (.ok row, db1)) := by
  rw [GetTodoByIdDB_ok_iff] at he
  have hid : e.ID = id := by simpa using List.find?_some he
  rcases UpdateTodoDB_cases db ctx id p now tick net1 net2 with ⟨err, h⟩ | ⟨e2, ⟨_, _, he2⟩, h⟩
  · have h2 := h.symm.trans hok
    simp only [Prod.mk.injEq, reduceCtorEq, false_and] at h2
  · have h2 := h.symm.trans hok
    simp only [Prod.mk.injEq, Except.ok.injEq] at h2
    obtain ⟨hrow, hdb⟩ := h2
    have hee : e2 = e := Option.some.inj (he2.symm.trans he)
    subst hee
    refine ⟨hrow.symm, ?_, ?_, ?_, ?_⟩
    · rw [← hrow]; exact hid
    · intro t ht
      rw [← hrow] at ht
      simp only at ht
      split at ht
      · cases ht
        exact Nat.le_add_right _ _
      · cases ht
    · rw [GetTodoByIdDB_ok_iff, ← hdb, find?_updateRows, he, ← hrow]
      rfl
    · intro pid pcreated pdoneAt
      rw [← hok]
      unfold UpdateTodoDB
      cases GetTodoByIdDB db ctx id net1 with
      | error err => rfl
      | ok ex => cases hd : p.Done <;> simp [hd]

/-- Witness of C10: row "b" of the sample table (done, done_at 3) updated at time 11 with
a payload that is not done and carries an id and timestamps of its own. -/
theorem C10_update_record_witness :
    GetTodoByIdDB sampleTable Context.Background "b" none
      = .ok ⟨"b", "Test Todo 2", "Test Description 2", true, 2, some 3⟩ ∧
    UpdateTodoDB sampleTable Context.Background "b" samplePayload 10 1 none none
      = (.ok ⟨"b", "Buy milk", "2%", false, 2, none⟩,
          [⟨"a", "Test Todo 1", "Test Description 1", false, 1, none⟩,
           ⟨"b", "Buy milk", "2%", false, 2, none⟩]) ∧
    (⟨"b", "Buy milk", "2%", false, 2, none⟩ : Todo).ID = "b" :=
  ⟨by rfl, by rfl,
    (C10_update_record sampleTable Context.Background Context.Background "b" samplePayload
      10 1 none none ⟨"b", "Test Todo 2", "Test Description 2", true, 2, some 3⟩
      ⟨"b", "Buy milk", "2%", false, 2, none⟩
      [⟨"a", "Test Todo 1", "Test Description 1", false, 1, none⟩,
       ⟨"b", "Buy milk", "2%", false, 2, none⟩] (by rfl) (by rfl)).2.1⟩

/-! ### List -/

theorem Slice.toList_append {α : Type} (s : Slice α) (x : α) :
    (s.append x).toList = s.toList ++ [x] := by
  cases s <;> rfl

theorem Slice.toList_foldl_append {α : Type} (xs : List α) (s : Slice α) :
    (xs.foldl Slice.append s).toList = s.toList ++ xs := by
  induction xs generalizing s with
  | nil => simp
  | cons x xs ih => rw [List.foldl_cons, ih, Slice.toList_append, List.append_assoc]; rfl

theorem perm_cons_eraseIdx {α : Type} (l : List α) (i : Nat) (x : α)
    (h : l.get? i = some x) : List.Perm l (x :: l.eraseIdx i) := by
  induction l generalizing i with
  | nil => simp at h
  | cons a t ih =>
    cases i with
    | zero =>
      simp only [List.get?_cons_zero, Option.some.injEq] at h
      subst h
      exact List.Perm.refl _
    | succ n =>
      simp only [List.get?_cons_succ] at h
      exact ((ih n h).cons a).trans (List.Perm.swap x a _)

theorem Loop.finish_toList (l : Loop) : l.finish.toList = l.content :=
  Slice.toList_foldl_append _ _

theorem Loop.step_content (l : Loop) (st : Step) (hst : st ≠ .abort) :
    List.Perm (l.step st).content l.content := by
  cases st with
  | scan =>
    unfold Loop.step Loop.content
    cases hr : l.rest with
    | nil => simp [hr]
    | cons row rest => simp
  | run i =>
    cases hp : l.pending.get? i with
    | none =>
      have hs : l.step (.run i) = l := by simp only [Loop.step, hp]
      rw [hs]
    | some row =>
      have hs : l.step (.run i) =
          { l with pending := l.pending.eraseIdx i, todos := l.todos.append row } := by
        simp only [Loop.step, hp]
      rw [hs]
      unfold Loop.content
      simp only [Slice.toList_append, List.append_assoc]
      refine List.Perm.append_left _ ?_
      have h1 := perm_cons_eraseIdx l.pending i row hp
      exact (h1.append_right l.rest).symm
  | abort => exact absurd rfl hst

theorem Loop.step_content_subperm (l : Loop) (st : Step) :
    List.Subperm (l.step st).content l.content := by
  by_cases hst : st = .abort
  · subst hst
    have hs : l.step .abort = { l with rest := [] } := rfl
    rw [hs]
    unfold Loop.content
    exact (List.Sublist.append (List.Sublist.refl _)
      (List.Sublist.append (List.Sublist.refl _) (List.nil_sublist _))).subperm
  · exact (Loop.step_content l st hst).subperm

theorem Loop.foldl_step_content (sched : List Step) (l : Loop) (hab : Step.abort ∉ sched) :
    List.Perm (sched.foldl Loop.step l).content l.content := by
  induction sched generalizing l with
  | nil => exact List.Perm.refl _
  | cons st sched ih =>
    have h1 : st ≠ .abort := fun h => hab (h ▸ List.mem_cons_self _ _)
    have h2 : Step.abort ∉ sched := fun h => hab (List.mem_cons_of_mem _ h)
    exact (ih (l.step st) h2).trans (Loop.step_content l st h1)

theorem Loop.foldl_step_content_subperm (sched : List Step) (l : Loop) :
    List.Subperm (sched.foldl Loop.step l).content l.content := by
  induction sched generalizing l with
  | nil => exact (List.Perm.refl _).subperm
  | cons st sched ih => exact (ih (l.step st)).trans (Loop.step_content_subperm l st)

/-- When the cursor does not fail, a successful `GetAllTodoDB` returns, whatever the
schedule, the rows of the table, each as often as the table holds it. -/
theorem GetAllTodoDB_perm (db : Table) (ctx : Context) (net : Net) (sched : List Step)
    (s : Slice Todo) (hab : Step.abort ∉ sched) (h : GetAllTodoDB db ctx net sched = .ok s) :
    List.Perm s.toList db := by
  unfold GetAllTodoDB at h
  rw [roundTrip_background] at h
  cases net with
  | some m => simp at h
  | none =>
    simp only [Option.map_none', Except.ok.injEq] at h
    rw [← h, Loop.finish_toList]
    refine (Loop.foldl_step_content sched _ hab).trans ?_
    simpa [Loop.content, Slice.toList, selectAllOrderById] using List.perm_insertionSort idLE db

/-- Under every course of events, a failing cursor included, what `GetAllTodoDB` returns
without error are rows of the table, none more often than the table holds it. -/
theorem GetAllTodoDB_subperm (db : Table) (ctx : Context) (net : Net) (sched : List Step)
    (s : Slice Todo) (h : GetAllTodoDB db ctx net sched = .ok s) :
    List.Subperm s.toList db := by
  unfold GetAllTodoDB at h
  rw [roundTrip_background] at h
  cases net with
  | some m => simp at h
  | none =>
    simp only [Option.map_none', Except.ok.injEq] at h
    rw [← h, Loop.finish_toList]
    refine (Loop.foldl_step_content_subperm sched _).trans ?_
    have hp : List.Perm (Loop.content ⟨selectAllOrderById db, [], .nil⟩) db := by
      simpa [Loop.content, Slice.toList, selectAllOrderById] using
        List.perm_insertionSort idLE db
    exact hp.subperm

/-- A cursor that fails is not reported: when it fails after the first row of the sample
table, `GetAllTodoDB` returns that one row and a nil error, and when it fails before the
first row it returns the nil slice and a nil error. -/
theorem GetAllTodoDB_cursor_failure :
    GetAllTodoDB sampleTable Context.Background none [.scan, .abort]
      = .ok (.data [⟨"a", "Test Todo 1", "Test Description 1", false, 1, none⟩]) ∧
    GetAllTodoDB sampleTable Context.Background none [.abort] = .ok .nil :=
  ⟨by rfl, by rfl⟩

/-- When every goroutine appends before the next row is scanned, the result is in the
order of the query. -/
theorem GetAllTodoDB_in_order (db : Table) (ctx : Context) :
    GetAllTodoDB db ctx none [] = .ok ((db.insertionSort idLE).foldl Slice.append .nil) := by
  unfold GetAllTodoDB
  rw [roundTrip_background]
  simp [Loop.finish, selectAllOrderById]

/-- C9 fails on the code: on the sample table the cursor delivers "a" then "b"; when the
goroutine of "b" takes the mutex before the goroutine of "a", GetAllTodoDB returns "b"
before "a", which is not ascending by id. -/
theorem C9_goroutines_reorder :
    GetAllTodoDB sampleTable Context.Background none [.scan, .scan, .run 1, .run 0]
      = .ok (.data [⟨"b", "Test Todo 2", "Test Description 2", true, 2, some 3⟩,
                    ⟨"a", "Test Todo 1", "Test Description 1", false, 1, none⟩]) ∧
    ¬ List.Sorted idLE [⟨"b", "Test Todo 2", "Test Description 2", true, 2, some 3⟩,
                        ⟨"a", "Test Todo 1", "Test Description 1", false, 1, none⟩] :=
  ⟨by rfl, by decide⟩

end Store

/-! ## Handler layer: responses -/

section Responses

variable {σ : Type}

theorem encodeError_respond (c : Nat) (msg : String) :
    ((ResponseWriter.new.setHeader "Content-Type" "application/json").WriteHeader c).encodeError
      msg = respond c [.errorMap msg] := by
  simp [respond, ResponseWriter.new, ResponseWriter.setHeader, ResponseWriter.WriteHeader,
    ResponseWriter.encodeError, ResponseWriter.write]

theorem write_respond (c : Nat) (x : Written) :
    ((ResponseWriter.new.setHeader "Content-Type" "application/json").WriteHeader c).write x
      = respond c [x] := by
  simp [respond, ResponseWriter.new, ResponseWriter.setHeader, ResponseWriter.WriteHeader,
    ResponseWriter.write]

theorem writeHeader_respond (c : Nat) :
    (ResponseWriter.new.setHeader "Content-Type" "application/json").WriteHeader c
      = respond c [] := by
  simp [respond, ResponseWriter.new, ResponseWriter.setHeader, ResponseWriter.WriteHeader]

theorem GetAllTodos_ok (h : APIHandler σ) (r : Request) (s s1 : σ) (ts : Slice Todo)
    (hs : h.todoStore.GetAllTodoDB (Context.WithTimeout r.ctx r.expired) s = (.ok ts, s1)) :
    h.GetAllTodos r s = (respond 200 [.todos ts], s1) := by
  unfold APIHandler.GetAllTodos
  simp only [hs, write_respond, StatusOK]

theorem CreateTodo_ok (h : APIHandler σ) (r : Request) (s s1 : σ) (x t : Todo)
    (hd : h.decode r.body = .ok x)
    (hs : h.todoStore.CreateTodoDB (Context.WithTimeout r.ctx r.expired) x s = (.ok t, s1)) :
    h.CreateTodo r s = (respond 201 [.todo t], s1) := by
  unfold APIHandler.CreateTodo
  simp only [hd, hs, write_respond, StatusCreated]

theorem UpdateTodo_ok (h : APIHandler σ) (r : Request) (s s1 : σ) (x t : Todo)
    (hd : h.decode r.body = .ok x)
    (hs : h.todoStore.UpdateTodoDB (Context.WithTimeout r.ctx r.expired) r.id x s
      = (.ok t, s1)) :
    h.UpdateTodo r s = (respond 200 [.todo t], s1) := by
  unfold APIHandler.UpdateTodo
  simp only [hd, hs, write_respond, StatusOK]

/-- C13: when the store call succeeds, GetAllTodos answers 200 with the encoding of the
store's list, GetTodoByID and UpdateTodo 200 with the encoding of the todo the store
returned, CreateTodo 201 with the encoding of the record the store returned (the decoded
request body does not appear), DeleteTodoByID 204 with no body, and ChangeStatus 200 with
the literal bytes `{"status":"success"}`; each with content type application/json. -/
theorem C13_success_responses (h : APIHandler σ) (r : Request) (s : σ) :
    (∀ ts s1, h.todoStore.GetAllTodoDB (Context.WithTimeout r.ctx r.expired) s = (.ok ts, s1) →
      h.GetAllTodos r s = (respond 200 [.todos ts], s1)) ∧
    (∀ t s1,
      h.todoStore.GetTodoByIdDB (Context.WithTimeout r.ctx r.expired) r.id s = (.ok t, s1) →
      h.GetTodoByID r s = (respond 200 [.todo t], s1)) ∧
    (∀ x t s1, h.decode r.body = .ok x →
      h.todoStore.CreateTodoDB (Context.WithTimeout r.ctx r.expired) x s = (.ok t, s1) →
      h.CreateTodo r s = (respond 201 [.todo t], s1)) ∧
    (∀ x t s1, h.decode r.body = .ok x →
      h.todoStore.UpdateTodoDB (Context.WithTimeout r.ctx r.expired) r.id x s = (.ok t, s1) →
      h.UpdateTodo r s = (respond 200 [.todo t], s1)) ∧
    (∀ s1,
      h.todoStore.DeleteTodoByIdDB (Context.WithTimeout r.ctx r.expired) r.id s = (none, s1) →
      h.DeleteTodoByID r s = (respond 204 [], s1)) ∧
    (∀ s1,
      h.todoStore.ChangeStatusDB (Context.WithTimeout r.ctx r.expired) r.id s = (none, s1) →
      h.ChangeStatus r s = (respond 200 [.raw "\x7b\"status\":\"success\"\x7d"], s1)) := by
  refine ⟨?_, ?_, ?_, ?_, ?_, ?_⟩
  · intro ts s1 hs
    exact GetAllTodos_ok h r s s1 ts hs
  · intro t s1 hs
    unfold APIHandler.GetTodoByID
    simp only [hs, write_respond, StatusOK]
  · intro x t s1 hd hs
    exact CreateTodo_ok h r s s1 x t hd hs
  · intro x t s1 hd hs
    exact UpdateTodo_ok h r s s1 x t hd hs
  · intro s1 hs
    unfold APIHandler.DeleteTodoByID
    simp only [hs, writeHeader_respond, StatusNoContent]
  · intro s1 hs
    unfold APIHandler.ChangeStatus
    simp only [hs, write_respond, StatusOK]

/-- Witness of C13: DELETE /todo/a and POST /todo/changeStatus/b on the sample table, served
by the real store without failures. -/
theorem C13_success_responses_witness :
    (NewTodoHandler calmEnv sampleDecode).DeleteTodoByID (requestFor "a") sampleTable
      = (respond 204 [], [⟨"b", "Test Todo 2", "Test Description 2", true, 2, some 3⟩]) ∧
    ((NewTodoHandler calmEnv sampleDecode).ChangeStatus (requestFor "b") sampleTable).1
      = respond 200 [.raw "\x7b\"status\":\"success\"\x7d"] :=
  have key := C13_success_responses (NewTodoHandler calmEnv sampleDecode)
  ⟨(key (requestFor "a") sampleTable).2.2.2.2.1 _ (by rfl),
    congrArg Prod.fst ((key (requestFor "b") sampleTable).2.2.2.2.2
      [⟨"a", "Test Todo 1", "Test Description 1", false, 1, none⟩,
       ⟨"b", "Test Todo 2", "Test Description 2", false, 2, none⟩] (by rfl))⟩

/-- C15: when the store call fails with an error of the NotFound kind, GetTodoByID answers
404 with the body encoding `{"error": "todo not found"}`, whatever the id, and UpdateTodo
answers with the same status and body; on the wire that is the object, with the quoted
text in its one field, followed by the newline of `Encode`. -/
theorem C15_not_found_response (h : APIHandler σ) (r : Request) (s : σ) (e : GoError)
    (hnf : IsNotFound e) :
    (∀ s1,
      h.todoStore.GetTodoByIdDB (Context.WithTimeout r.ctx r.expired) r.id s = (.error e, s1) →
      h.GetTodoByID r s = (respond 404 [.errorMap "todo not found"], s1)) ∧
    (∀ x s1, h.decode r.body = .ok x →
      h.todoStore.UpdateTodoDB (Context.WithTimeout r.ctx r.expired) r.id x s = (.error e, s1) →
      h.UpdateTodo r s = (respond 404 [.errorMap "todo not found"], s1)) ∧
    (∀ c : JsonCodec, (Written.errorMap "todo not found").render c
      = "\x7b\"error\":" ++ c.string "todo not found" ++ "\x7d\n") := by
  unfold IsNotFound at hnf
  refine ⟨?_, ?_, fun c => rfl⟩
  · intro s1 hs
    unfold APIHandler.GetTodoByID
    simp only [hs, hnf, if_true, encodeError_respond, StatusNotFound]
  · intro x s1 hd hs
    unfold APIHandler.UpdateTodo
    simp only [hd, hs, hnf, if_true, encodeError_respond, StatusNotFound]

/-- Witness of C15: GET /todo/unknown-id against a store that reports the wrapped
sentinel of GetTodoByIdDB. -/
theorem C15_not_found_response_witness :
    (⟨failingStore (errorfW "todo not found with ID unknown-id: " .ErrTodoNotFound),
        sampleDecode⟩ : APIHandler Nat).GetTodoByID (requestFor "unknown-id") 0
      = (respond 404 [.errorMap "todo not found"], 1) :=
  (C15_not_found_response
    (⟨failingStore (errorfW "todo not found with ID unknown-id: " .ErrTodoNotFound),
      sampleDecode⟩ : APIHandler Nat) (requestFor "unknown-id") 0
    (errorfW "todo not found with ID unknown-id: " .ErrTodoNotFound) (by decide)).1 1 rfl

/-- C16: when the store call fails with an error `e` that is not of the NotFound kind,
DeleteTodoByID answers 500 with the error field "Failed to delete todo: " followed by
`e.Error()`, and ChangeStatus answers 500 with the error field
"Failed to changeStatus todo: " followed by `e.Error()`. -/
theorem C16_error_text_in_500 (h : APIHandler σ) (r : Request) (s : σ) (e : GoError)
    (hnf : ¬ IsNotFound e) :
    (∀ s1,
      h.todoStore.DeleteTodoByIdDB (Context.WithTimeout r.ctx r.expired) r.id s = (some e, s1) →
      h.DeleteTodoByID r s
        = (respond 500 [.errorMap ("Failed to delete todo: " ++ e.Error)], s1)) ∧
    (∀ s1,
      h.todoStore.ChangeStatusDB (Context.WithTimeout r.ctx r.expired) r.id s = (some e, s1) →
      h.ChangeStatus r s
        = (respond 500 [.errorMap ("Failed to changeStatus todo: " ++ e.Error)], s1)) := by
  unfold IsNotFound at hnf
  refine ⟨?_, ?_⟩
  · intro s1 hs
    unfold APIHandler.DeleteTodoByID
    simp only [hs, hnf, Bool.false_eq_true, if_false, encodeError_respond, StatusInternalServerError]
  · intro s1 hs
    unfold APIHandler.ChangeStatus
    simp only [hs, hnf, Bool.false_eq_true, if_false, encodeError_respond, StatusInternalServerError]

/-- Witness of C16: the store error of TestDelete_DBError and TestChangeStatus_DBError. -/
theorem C16_error_text_in_500_witness :
    (⟨failingStore (.other "Database connection failed"), sampleDecode⟩
        : APIHandler Nat).DeleteTodoByID (requestFor "1") 0
      = (respond 500 [.errorMap "Failed to delete todo: Database connection failed"], 1) ∧
    (⟨failingStore (.other "Database connection failed"), sampleDecode⟩
        : APIHandler Nat).ChangeStatus (requestFor "1") 0
      = (respond 500 [.errorMap "Failed to changeStatus todo: Database connection failed"],
          1) :=
  have key := C16_error_text_in_500
    (⟨failingStore (.other "Database connection failed"), sampleDecode⟩ : APIHandler Nat)
    (requestFor "1") 0 (.other "Database connection failed") (by decide)
  ⟨key.1 1 rfl, key.2 1 rfl⟩

/-- C17: the generic 500 responses carry nothing of the store error. Two runs of
GetAllTodos whose store calls fail, with any errors, give the same response, 500 with error
"no data found"; two runs of GetTodoByID, or of UpdateTodo with decodable bodies, whose
store calls fail with errors not of the NotFound kind give the same response, 500 with
error "Internal Server Error". -/
theorem C17_generic_500 {σ1 σ2 : Type} (h1 : APIHandler σ1) (h2 : APIHandler σ2)
    (r1 r2 : Request) (s1 : σ1) (s2 : σ2) (e1 e2 : GoError) :
    (∀ t1 t2,
      h1.todoStore.GetAllTodoDB (Context.WithTimeout r1.ctx r1.expired) s1 = (.error e1, t1) →
      h2.todoStore.GetAllTodoDB (Context.WithTimeout r2.ctx r2.expired) s2 = (.error e2, t2) →
      (h1.GetAllTodos r1 s1).1 = (h2.GetAllTodos r2 s2).1 ∧
      (h1.GetAllTodos r1 s1).1 = respond 500 [.errorMap "no data found"]) ∧
    (¬ IsNotFound e1 → ¬ IsNotFound e2 → ∀ t1 t2,
      h1.todoStore.GetTodoByIdDB (Context.WithTimeout r1.ctx r1.expired) r1.id s1
        = (.error e1, t1) →
      h2.todoStore.GetTodoByIdDB (Context.WithTimeout r2.ctx r2.expired) r2.id s2
        = (.error e2, t2) →
      (h1.GetTodoByID r1 s1).1 = (h2.GetTodoByID r2 s2).1 ∧
      (h1.GetTodoByID r1 s1).1 = respond 500 [.errorMap "Internal Server Error"]) ∧
    (¬ IsNotFound e1 → ¬ IsNotFound e2 → ∀ x1 x2 t1 t2,
      h1.decode r1.body = .ok x1 → h2.decode r2.body = .ok x2 →
      h1.todoStore.UpdateTodoDB (Context.WithTimeout r1.ctx r1.expired) r1.id x1 s1
        = (.error e1, t1) →
      h2.todoStore.UpdateTodoDB (Context.WithTimeout r2.ctx r2.expired) r2.id x2 s2
        = (.error e2, t2) →
      (h1.UpdateTodo r1 s1).1 = (h2.UpdateTodo r2 s2).1 ∧
      (h1.UpdateTodo r1 s1).1 = respond 500 [.errorMap "Internal Server Error"]) := by
  refine ⟨?_, ?_, ?_⟩
  · intro t1 t2 hs1 hs2
    have a1 : (h1.GetAllTodos r1 s1).1 = respond 500 [.errorMap "no data found"] := by
      unfold APIHandler.GetAllTodos
      simp only [hs1, encodeError_respond, StatusInternalServerError]
    have a2 : (h2.GetAllTodos r2 s2).1 = respond 500 [.errorMap "no data found"] := by
      unfold APIHandler.GetAllTodos
      simp only [hs2, encodeError_respond, StatusInternalServerError]
    exact ⟨a1.trans a2.symm, a1⟩
  · intro hn1 hn2 t1 t2 hs1 hs2
    unfold IsNotFound at hn1 hn2
    have a1 : (h1.GetTodoByID r1 s1).1 = respond 500 [.errorMap "Internal Server Error"] := by
      unfold APIHandler.GetTodoByID
      simp only [hs1, hn1, Bool.false_eq_true, if_false, encodeError_respond, StatusInternalServerError]
    have a2 : (h2.GetTodoByID r2 s2).1 = respond 500 [.errorMap "Internal Server Error"] := by
      unfold APIHandler.GetTodoByID
      simp only [hs2, hn2, Bool.false_eq_true, if_false, encodeError_respond, StatusInternalServerError]
    exact ⟨a1.trans a2.symm, a1⟩
  · intro hn1 hn2 x1 x2 t1 t2 hd1 hd2 hs1 hs2
    unfold IsNotFound at hn1 hn2
    have a1 : (h1.UpdateTodo r1 s1).1 = respond 500 [.errorMap "Internal Server Error"] := by
      unfold APIHandler.UpdateTodo
      simp only [hd1, hs1, hn1, Bool.false_eq_true, if_false, encodeError_respond, StatusInternalServerError]
    have a2 : (h2.UpdateTodo r2 s2).1 = respond 500 [.errorMap "Internal Server Error"] := by
      unfold APIHandler.UpdateTodo
      simp only [hd2, hs2, hn2, Bool.false_eq_true, if_false, encodeError_respond, StatusInternalServerError]
    exact ⟨a1.trans a2.symm, a1⟩

/-- Witness of C17: a store that fails with a connection error and one that fails with
the NotFound sentinel give the same response to GET /todos; a connection error and a
driver error give the same response to GET /todo/1. -/
theorem C17_generic_500_witness :
    ((⟨failingStore (.other "Database connection failed"), sampleDecode⟩
        : APIHandler Nat).GetAllTodos (requestFor "") 0).1
      = ((⟨failingStore .ErrTodoNotFound, sampleDecode⟩
        : APIHandler Nat).GetAllTodos (requestFor "") 5).1 ∧
    ((⟨failingStore (.other "Database connection failed"), sampleDecode⟩
        : APIHandler Nat).GetTodoByID (requestFor "1") 0).1
      = ((⟨failingStore .ErrNoRows, sampleDecode⟩
        : APIHandler Nat).GetTodoByID (requestFor "1") 5).1 :=
  ⟨((C17_generic_500
      (⟨failingStore (.other "Database connection failed"), sampleDecode⟩ : APIHandler Nat)
      (⟨failingStore .ErrTodoNotFound, sampleDecode⟩ : APIHandler Nat)
      (requestFor "") (requestFor "") 0 5 (.other "Database connection failed")
      .ErrTodoNotFound).1 1 6 rfl rfl).1,
    ((C17_generic_500
      (⟨failingStore (.other "Database connection failed"), sampleDecode⟩ : APIHandler Nat)
      (⟨failingStore .ErrNoRows, sampleDecode⟩ : APIHandler Nat)
      (requestFor "1") (requestFor "1") 0 5 (.other "Database connection failed")
      .ErrNoRows).2.1 (by decide) (by decide) 1 6 rfl rfl).1⟩

end Responses

/-! ## Store: what a toggle leaves alone -/

section Frame

theorem find?_updateStatusRows_of_ne (db : Table) (done : Bool) (doneAt : Option Time)
    (id j : String) (hj : j ≠ id) :
    (updateStatusRows db done doneAt id).find? (fun r => r.ID == j) =
      db.find? (fun r => r.ID == j) := by
  unfold updateStatusRows
  induction db with
  | nil => rfl
  | cons a t ih =>
    rw [List.map_cons, List.find?_cons, List.find?_cons, ih]
    by_cases ha : a.ID = id
    · subst ha
      have hne : (a.ID == j) = false := by
        simp only [beq_eq_false_iff_ne, ne_eq]
        exact fun h => hj h.symm
      simp [hne]
    · simp [ha]

theorem mem_updateStatusRows_of_ne (db : Table) (done : Bool) (doneAt : Option Time)
    (id : String) (r : Todo) (hr : r.ID ≠ id) :
    r ∈ updateStatusRows db done doneAt id ↔ r ∈ db := by
  unfold updateStatusRows
  rw [List.mem_map]
  constructor
  · rintro ⟨r0, hr0, hrr⟩
    by_cases h0 : r0.ID = id
    · simp only [h0, beq_self_eq_true, if_true] at hrr
      exact absurd (by rw [← hrr]) hr
    · have hb : (r0.ID == id) = false := by simpa using h0
      simp only [hb, Bool.false_eq_true, if_false] at hrr
      exact hrr ▸ hr0
  · intro hmem
    have hb : (r.ID == id) = false := by simpa using hr
    exact ⟨r, hmem, by simp only [hb, Bool.false_eq_true, if_false]⟩

/-- C18: for an existing todo e with id i, a successful ChangeStatusDB(i) leaves under i
the record e with done flipped and done_at the clock reading of the call if the new done
is true and null otherwise, its id, title, description and created_at being those of e;
the table keeps its length and order, the rows with another id are the same before and
after, and every lookup by another id answers as before. With ids unique, every row
other than e is still in the table. -/
theorem C18_toggle_frame (db : Table) (ctx ctx2 : Context) (id : String) (now tick : Time)
    (net1 net2 : Net) (e : Todo) (db1 : Table)
    (he : GetTodoByIdDB db ctx id none = .ok e)
    (hok : ChangeStatusDB db ctx id now tick net1 net2 = (none, db1)) :
    GetTodoByIdDB db1 ctx2 id none =
      .ok { ID := e.ID, Title := e.Title, Desc := e.Desc, Done := !e.Done,
            CreatedAt := e.CreatedAt,
            DoneAt := if (!e.Done) = true then some (now + tick) else none } ∧
    db1 = updateStatusRows db (!e.Done)
      (if (!e.Done) = true then some (now + tick) else none) id ∧
    db1.length = db.length ∧
    (∀ r, r.ID ≠ id → (r ∈ db1 ↔ r ∈ db)) ∧
    (∀ j, j ≠ id → GetTodoByIdDB db1 ctx2 j none = GetTodoByIdDB db ctx2 j none) ∧
    ((db.map Todo.ID).Nodup → ∀ r ∈ db, r ≠ e → r ∈ db1) := by
  rw [GetTodoByIdDB_ok_iff] at he
  have hid : e.ID = id := by simpa using List.find?_some he
  have hdb : db1 = updateStatusRows db (!e.Done)
      (if (!e.Done) = true then some (now + tick) else none) id := by
    rcases ChangeStatusDB_cases db ctx id now tick net1 net2 with ⟨err, h⟩ | ⟨e2, ⟨_, _, _, he2⟩, h⟩
    · have h2 := h.symm.trans hok
      simp only [Prod.mk.injEq, reduceCtorEq, false_and] at h2
    · have h2 := h.symm.trans hok
      simp only [Prod.mk.injEq, true_and] at h2
      have hee : e2 = e := Option.some.inj (he2.symm.trans he)
      rw [← h2, hee]
  have hfr : ∀ r, r.ID ≠ id → (r ∈ db1 ↔ r ∈ db) := by
    intro r hr
    rw [hdb]
    exact mem_updateStatusRows_of_ne db _ _ id r hr
  refine ⟨?_, hdb, ?_, hfr, ?_, ?_⟩
  · rw [GetTodoByIdDB_ok_iff, hdb, find?_updateStatusRows, he]
    rfl
  · rw [hdb]
    simp [updateStatusRows]
  · intro j hj
    rw [GetTodoByIdDB_none, GetTodoByIdDB_none, hdb,
      find?_updateStatusRows_of_ne db _ _ id j hj]
  · intro hnd r hr hne
    have hem : e ∈ db := List.mem_of_find?_eq_some he
    have hrid : r.ID ≠ id := by
      intro h
      exact hne (List.inj_on_of_nodup_map hnd hr hem (h.trans hid.symm))
    exact (hfr r hrid).2 hr

/-- Witness of C18: row "a" of the sample table, open, toggled at time 11; row "b" stays
as it was. -/
theorem C18_toggle_frame_witness :
    GetTodoByIdDB sampleTable Context.Background "a" none
      = .ok ⟨"a", "Test Todo 1", "Test Description 1", false, 1, none⟩ ∧
    ChangeStatusDB sampleTable Context.Background "a" 10 1 none none
      = (none, [⟨"a", "Test Todo 1", "Test Description 1", true, 1, some 11⟩,
                ⟨"b", "Test Todo 2", "Test Description 2", true, 2, some 3⟩]) ∧
    GetTodoByIdDB [⟨"a", "Test Todo 1", "Test Description 1", true, 1, some 11⟩,
                   ⟨"b", "Test Todo 2", "Test Description 2", true, 2, some 3⟩]
        Context.Background "a" none
      = .ok ⟨"a", "Test Todo 1", "Test Description 1", true, 1, some 11⟩ :=
  ⟨by rfl, by rfl,
    (C18_toggle_frame sampleTable Context.Background Context.Background "a" 10 1 none none
      ⟨"a", "Test Todo 1", "Test Description 1", false, 1, none⟩
      [⟨"a", "Test Todo 1", "Test Description 1", true, 1, some 11⟩,
       ⟨"b", "Test Todo 2", "Test Description 2", true, 2, some 3⟩] (by rfl) (by rfl)).1⟩

end Frame

/-! ## Handler and store together -/

section Server

theorem NewTodoHandler_CreateTodoDB (env : Env) (decode : String → Except GoError Todo)
    (ctx : Context) (x : Todo) (db : Table) :
    (NewTodoHandler env decode).todoStore.CreateTodoDB ctx x db
      = CreateTodoDB db ctx x env.rnd env.now env.tick1 env.tick2 env.net1 := rfl

theorem NewTodoHandler_UpdateTodoDB (env : Env) (decode : String → Except GoError Todo)
    (ctx : Context) (id : String) (x : Todo) (db : Table) :
    (NewTodoHandler env decode).todoStore.UpdateTodoDB ctx id x db
      = UpdateTodoDB db ctx id x env.now env.tick1 env.net1 env.net2 := rfl

/-- What handler and store do with title and description: whenever the body decodes to a
todo x and the store call succeeds, CreateTodo answers 201 and UpdateTodo 200 with the
stored record, the record is in the table afterwards, and its title and description are
those of x; nothing on the way looks at either field. -/
theorem title_and_description_as_sent (env : Env) (decode : String → Except GoError Todo)
    (r : Request) (db : Table) (x : Todo) (hdec : decode r.body = .ok x) :
    (∀ row db1,
      CreateTodoDB db (Context.WithTimeout r.ctx r.expired) x env.rnd env.now env.tick1
          env.tick2 env.net1 = (.ok row, db1) →
      (NewTodoHandler env decode).CreateTodo r db = (respond 201 [.todo row], db1) ∧
      row ∈ db1 ∧ row.Title = x.Title ∧ row.Desc = x.Desc) ∧
    (∀ row db1,
      UpdateTodoDB db (Context.WithTimeout r.ctx r.expired) r.id x env.now env.tick1
          env.net1 env.net2 = (.ok row, db1) →
      (NewTodoHandler env decode).UpdateTodo r db = (respond 200 [.todo row], db1) ∧
      row ∈ db1 ∧ row.Title = x.Title ∧ row.Desc = x.Desc) := by
  refine ⟨?_, ?_⟩
  · intro row db1 hok
    refine ⟨CreateTodo_ok (NewTodoHandler env decode) r db db1 x row hdec
      ((NewTodoHandler_CreateTodoDB env decode _ x db).trans hok), ?_⟩
    obtain ⟨_, hrow, hdb⟩ := CreateTodoDB_ok db (Context.WithTimeout r.ctx r.expired) x
      env.rnd env.now env.tick1 env.tick2 env.net1 row db1 hok
    have ht : row.Title = x.Title := by rw [hrow, createdRow]
    have hd : row.Desc = x.Desc := by rw [hrow, createdRow]
    refine ⟨?_, ht, hd⟩
    rw [hdb, ← hrow]
    exact List.mem_append_right _ (List.mem_singleton_self _)
  · intro row db1 hok
    refine ⟨UpdateTodo_ok (NewTodoHandler env decode) r db db1 x row hdec
      ((NewTodoHandler_UpdateTodoDB env decode _ r.id x db).trans hok), ?_⟩
    rcases UpdateTodoDB_cases db (Context.WithTimeout r.ctx r.expired) r.id x env.now env.tick1
      env.net1 env.net2 with ⟨err, h⟩ | ⟨e, ⟨_, _, he⟩, h⟩
    · have h2 := h.symm.trans hok
      simp only [Prod.mk.injEq, reduceCtorEq, false_and] at h2
    · have h2 := h.symm.trans hok
      simp only [Prod.mk.injEq, Except.ok.injEq] at h2
      obtain ⟨hrow, hdb⟩ := h2
      refine ⟨?_, by rw [← hrow], by rw [← hrow]⟩
      have hf := find?_updateRows db x.Title x.Desc x.Done
        (if x.Done then some (env.now + env.tick1) else none) r.id
      rw [he, Option.map_some', hdb, hrow] at hf
      exact List.mem_of_find?_eq_some hf

/-- C11 fails on the code: POST /todo with the body `{}`, which decodes to a todo with
empty title, is answered 201 and the row with the empty title is in the table afterwards;
PUT /todo/a with the same body is answered 200 and row "a" has an empty title
afterwards. The tags `validate:"required"` and `validate:"max=500"` of todo.go:17-18 are
never evaluated. -/
theorem C11_empty_title_stored :
    (NewTodoHandler calmEnv sampleDecode).CreateTodo (sampleRequest "\x7b\x7d") sampleTable
      = (respond 201 [.todo ⟨"ffffffff-ffff-4fff-bfff-ffffffffffff", "", "", false, 11, none⟩],
          sampleTable ++ [⟨"ffffffff-ffff-4fff-bfff-ffffffffffff", "", "", false, 11, none⟩]) ∧
    (⟨"ffffffff-ffff-4fff-bfff-ffffffffffff", "", "", false, 11, none⟩ : Todo).Title = "" ∧
    (NewTodoHandler calmEnv sampleDecode).UpdateTodo
        ⟨Context.Background, false, "a", "\x7b\x7d"⟩ sampleTable
      = (respond 200 [.todo ⟨"a", "", "", false, 1, none⟩],
          [⟨"a", "", "", false, 1, none⟩,
           ⟨"b", "Test Todo 2", "Test Description 2", true, 2, some 3⟩]) :=
  ⟨by rfl, rfl, by rfl⟩

/-- The four operations that issue their statements under `context.Background()` do not
look at the context they are given. -/
theorem store_ignores_context (db : Table) (ctx : Context) (id : String) (todo : Todo)
    (now tick : Time) (net1 net2 : Net) (sched : List Step) :
    GetAllTodoDB db ctx net1 sched = GetAllTodoDB db Context.Background net1 sched ∧
    GetTodoByIdDB db ctx id net1 = GetTodoByIdDB db Context.Background id net1 ∧
    UpdateTodoDB db ctx id todo now tick net1 net2
      = UpdateTodoDB db Context.Background id todo now tick net1 net2 ∧
    DeleteTodoByIdDB db ctx id net1 net2 = DeleteTodoByIdDB db Context.Background id net1 net2 :=
  ⟨rfl, rfl, rfl, rfl⟩

/-- The two operations that issue their statements under the context they are given fail
without touching the table when that context is done. -/
theorem store_honours_context (db : Table) (ctx : Context) (msg id : String) (todo : Todo)
    (rnd : List Nat) (now tick1 tick2 : Time) (net1 net2 : Net) (hctx : ctx.Err = some msg) :
    CreateTodoDB db ctx todo rnd now tick1 tick2 net1 = (.error (.other msg), db) ∧
    ChangeStatusDB db ctx id now tick1 net1 net2
      = (some (errorfV "failed to retrieve todo: " (.other msg)), db) := by
  constructor
  · unfold CreateTodoDB roundTrip
    simp only [hctx]
  · unfold ChangeStatusDB queryRow roundTrip
    simp [hctx]

/-- C12 fails on the code: with a request context that is already cancelled and a
database that answers, GET /todo/a and GET /todos are answered 200, PUT /todo/a 200 with
the row rewritten and DELETE /todo/a 204 with the row gone, where the claim has 500 and an
untouched table; POST /todo/changeStatus/a and POST /todo, whose store operations pass
the context on, are answered 500. -/
theorem C12_cancelled_context :
    ((NewTodoHandler calmEnv sampleDecode).GetTodoByID (cancelledRequest "a" "")
        sampleTable).1.status = 200 ∧
    ((NewTodoHandler calmEnv sampleDecode).GetAllTodos (cancelledRequest "" "")
        sampleTable).1.status = 200 ∧
    (NewTodoHandler calmEnv sampleDecode).UpdateTodo (cancelledRequest "a" "\x7b\x7d")
        sampleTable
      = (respond 200 [.todo ⟨"a", "", "", false, 1, none⟩],
          [⟨"a", "", "", false, 1, none⟩,
           ⟨"b", "Test Todo 2", "Test Description 2", true, 2, some 3⟩]) ∧
    (NewTodoHandler calmEnv sampleDecode).DeleteTodoByID (cancelledRequest "a" "") sampleTable
      = (respond 204 [], [⟨"b", "Test Todo 2", "Test Description 2", true, 2, some 3⟩]) ∧
    ((NewTodoHandler calmEnv sampleDecode).ChangeStatus (cancelledRequest "a" "")
        sampleTable).1.status = 500 ∧
    ((NewTodoHandler calmEnv sampleDecode).CreateTodo (cancelledRequest "" "\x7b\x7d")
        sampleTable).1.status = 500 :=
  ⟨by rfl, by rfl, by rfl, by rfl, by rfl, by rfl⟩

theorem Slice.ne_nil_of_toList_ne_nil {α : Type} (s : Slice α) (h : s.toList ≠ []) :
    ∃ xs, s = .data xs := by
  cases s with
  | nil => exact absurd rfl h
  | data xs => exact ⟨xs, rfl⟩

/-- On a table with at least one row, GET /todos, the query answered and the cursor
not failing, is answered 200 with one array holding the rows of the table. -/
theorem GetAllTodos_array (env : Env) (decode : String → Except GoError Todo) (r : Request)
    (db : Table) (hne : db ≠ []) (hnet : env.net1 = none) (hab : Step.abort ∉ env.sched) :
    ∃ xs, (NewTodoHandler env decode).GetAllTodos r db = (respond 200 [.todos (.data xs)], db) ∧
      List.Perm xs db := by
  cases hg : GetAllTodoDB db (Context.WithTimeout r.ctx r.expired) env.net1 env.sched with
  | error err =>
    unfold GetAllTodoDB at hg
    rw [roundTrip_background, hnet] at hg
    simp at hg
  | ok ts =>
    have hperm := GetAllTodoDB_perm db _ _ _ ts hab hg
    have hts : ts.toList ≠ [] := fun h => hne (List.Perm.eq_nil (h ▸ hperm.symm))
    obtain ⟨xs, rfl⟩ := Slice.ne_nil_of_toList_ne_nil ts hts
    refine ⟨xs, ?_, hperm⟩
    exact GetAllTodos_ok (NewTodoHandler env decode) r db db (.data xs)
      (by show (GetAllTodoDB db _ env.net1 env.sched, db) = _; rw [hg])

/-- A cursor that fails before the first row is answered like an empty table: GET /todos
on the sample table gives 200 with the encoding of the nil slice. -/
theorem GetAllTodos_cursor_failure :
    (NewTodoHandler { calmEnv with sched := [.abort] } sampleDecode).GetAllTodos
        (requestFor "") sampleTable
      = (respond 200 [.todos .nil], sampleTable) :=
  by rfl

/-- C14 fails on the code: on the table without rows GET /todos is answered 200 with the
encoding of the nil slice, which is `null` and not the empty array `[]`. -/
theorem C14_empty_table_null :
    (NewTodoHandler calmEnv sampleDecode).GetAllTodos (requestFor "") []
      = (respond 200 [.todos .nil], []) ∧
    ¬ (Written.todos .nil).IsArray ∧
    (∀ c : JsonCodec, (Written.todos .nil).render c = "null\n") ∧
    (∀ c : JsonCodec, (Written.todos (.data [])).render c = "[]\n") :=
  ⟨by rfl, fun h => h, fun _ => rfl, fun _ => by rfl⟩

end Server

end TodoApi
